import Mathlib

/-!
Verification of the design-team project-state scripts.

This file gives a shallow embedding of the Python sources under
`scripts/` (the phase-gate checker `check_completion.py`, the structural
validator `validate_state.py`, and the six entity editors under
`scripts/edit/`) and proves properties of the embedded code.

Documents are modelled as JSON-like values (`Val`) with the root being a
Python dict, modelled as an ordered association list (`Doc`).  Python
operations that can raise (attribute access on a non-dict, `len` of a
non-sized value, iteration of a non-iterable, string-subscripting a
non-dict) are modelled in the `Except String` monad, so that raising
behaviour on malformed documents is captured faithfully.  Each editor is
modelled from the moment its document has been loaded from disk; the
atomic tempfile-plus-rename persistence step is modelled by the `write`
field of `EditResult`, which is `none` exactly on the paths of the
Python code that return before the write.
-/

set_option autoImplicit false

namespace DesignTeam

/-- Values of the JSON documents the scripts operate on, with Python
semantics for the operations below. -/
inductive Val where
  | null
  | bool (b : Bool)
  | num (n : Int)
  | str (s : String)
  | list (xs : List Val)
  | obj (fs : List (String × Val))

/-- A document root: a Python dict with string keys, in insertion order. -/
abbrev Doc := List (String × Val)

/-- First binding of a key in a dict, mirroring Python dict lookup. -/
def lookupVal : Doc → String → Option Val
  | [], _ => none
  | (k, v) :: rest, key => if k = key then some v else lookupVal rest key

/-- Membership test for a key, mirroring the Python expression `key in d`. -/
def containsKey (d : Doc) (k : String) : Bool :=
  (lookupVal d k).isSome

/-- Dict assignment `d[key] = v`: replaces the value of an existing key in
place, otherwise appends the new binding, as Python dicts do. -/
def dset : Doc → String → Val → Doc
  | [], key, v => [(key, v)]
  | (k, w) :: rest, key, v =>
      if k = key then (k, v) :: rest else (k, w) :: dset rest key v

/-- Name of the Python type of a value, used in exception messages. -/
def pyTypeName : Val → String
  | .null => "NoneType"
  | .bool _ => "bool"
  | .num _ => "int"
  | .str _ => "str"
  | .list _ => "list"
  | .obj _ => "dict"

/-- Test for the Python value `None`. -/
def Val.isNull : Val → Bool
  | .null => true
  | _ => false

/-- Python truthiness of a value. -/
def pyTruthy : Val → Bool
  | .null => false
  | .bool b => b
  | .num n => n != 0
  | .str s => s ≠ ""
  | .list xs => ¬ xs.isEmpty
  | .obj fs => ¬ fs.isEmpty

/-- Python equality test between a value and a string literal. -/
def Val.eqStr : Val → String → Bool
  | .str s, t => s = t
  | _, _ => false

/-- Python membership test of a value in a list of string literals. -/
def Val.inStrList : Val → List String → Bool
  | .str s, l => l.contains s
  | _, _ => false

mutual

/-- Python `repr` of a value (string escaping inside quoted strings is not
reproduced; no claim depends on it). -/
def pyRepr : Val → String
  | .null => "None"
  | .bool true => "True"
  | .bool false => "False"
  | .num n => toString n
  | .str s => "\x27" ++ s ++ "\x27"
  | .list xs => "[" ++ pyReprItems xs ++ "]"
  | .obj fs => "\x7b" ++ pyReprFields fs ++ "\x7d"

/-- Comma-separated `repr` of list items. -/
def pyReprItems : List Val → String
  | [] => ""
  | [x] => pyRepr x
  | x :: y :: rest => pyRepr x ++ ", " ++ pyReprItems (y :: rest)

/-- Comma-separated `repr` of dict entries. -/
def pyReprFields : List (String × Val) → String
  | [] => ""
  | [(k, v)] => "\x27" ++ k ++ "\x27: " ++ pyRepr v
  | (k, v) :: q :: rest => "\x27" ++ k ++ "\x27: " ++ pyRepr v ++ ", " ++ pyReprFields (q :: rest)

end

/-- Python `str` of a value, as used in f-string interpolation. -/
def pystr : Val → String
  | .str s => s
  | v => pyRepr v

/-- Python `repr` of a list of strings, as interpolated into messages such
as the `Must be one of [...]` parts of validator messages. -/
def pyReprStrList (l : List String) : String :=
  pyRepr (.list (l.map .str))

/-- Length of a value, mirroring Python `len`, raising `TypeError` on
unsized values. -/
def pyLen : Val → Except String Nat
  | .str s => .ok s.length
  | .list xs => .ok xs.length
  | .obj fs => .ok fs.length
  | v => .error ("TypeError: object of type \x27" ++ pyTypeName v ++ "\x27 has no len()")

/-- Iteration over a value, mirroring Python `for x in v`: lists yield
their elements, strings their characters, dicts their keys; other values
raise `TypeError`. -/
def pyIter : Val → Except String (List Val)
  | .list xs => .ok xs
  | .str s => .ok (s.toList.map (fun c => .str (String.mk [c])))
  | .obj fs => .ok (fs.map (fun p => .str p.1))
  | v => .error ("TypeError: \x27" ++ pyTypeName v ++ "\x27 object is not iterable")

/-- Attribute-style dict access `v.get(key)` with default `None`; raises
`AttributeError` when `v` is not a dict. -/
def vgetD (v : Val) (key : String) : Except String Val :=
  match v with
  | .obj fs => .ok ((lookupVal fs key).getD .null)
  | v => .error ("AttributeError: \x27" ++ pyTypeName v ++ "\x27 object has no attribute \x27get\x27")

/-- Subscript access `v[key]`; raises `KeyError` for a missing key and
`TypeError` when `v` is not a dict. -/
def vsub (v : Val) (key : String) : Except String Val :=
  match v with
  | .obj fs =>
      match lookupVal fs key with
      | some w => .ok w
      | none => .error ("KeyError: \x27" ++ key ++ "\x27")
  | v => .error ("TypeError: \x27" ++ pyTypeName v ++ "\x27 object is not subscriptable by string")

/-- Root-dict access `state.get(key, default)`; the root of a loaded
document is always a dict, so this is total. -/
def rootGet (d : Doc) (k : String) (dflt : Val) : Val :=
  (lookupVal d k).getD dflt

/-- Root-dict subscript `state[key]` at program points where the key is
known to be present (the scripts guard these accesses). -/
def dgetF (d : Doc) (k : String) : Val :=
  (lookupVal d k).getD .null

/-- Target of a Python `.append` call: a list yields its elements, any
other value raises `AttributeError`. -/
def pyAppendTarget : Val → Except String (List Val)
  | .list xs => .ok xs
  | v => .error ("AttributeError: \x27" ++ pyTypeName v ++ "\x27 object has no attribute \x27append\x27")

/-- Python list concatenation `v + new` where `new` is a list of strings;
raises `TypeError` when `v` is not a list. -/
def pyAddStrs (v : Val) (new : List String) : Except String Val :=
  match v with
  | .list xs => .ok (.list (xs ++ new.map .str))
  | v => .error ("TypeError: unsupported operand type(s) for +: \x27" ++ pyTypeName v ++ "\x27 and \x27list\x27")

/-- The five phase names, shared verbatim by every script. -/
def valid_phases : List String :=
  ["empathize", "define", "ideate", "prototype", "iterate"]

/-! Embedding of `scripts/check_completion.py`.  The check functions have
no internal exception handler, so they live in `Except String`; a
`.error` value models an uncaught Python exception. -/

namespace CheckCompletion

/-- Loop body of `check_empathize_complete` over the stakeholder list.
The `sh.get("name")` lookups of the source are hoisted before the
truthiness tests; `.get` on the same dict cannot raise, so raising
behaviour is unchanged. -/
def empathize_stakeholder_reasons : List Val → Except String (List String)
  | [] => .ok []
  | sh :: rest => do
      let notes ← vgetD sh "notes_links"
      let nm ← vgetD sh "name"
      let needsV ← vgetD sh "needs"
      let pains ← vgetD sh "pain_points"
      let r1 := if pyTruthy notes then []
        else ["Stakeholder \x27" ++ pystr nm ++ "\x27 needs research notes"]
      let r2 := if pyTruthy needsV || pyTruthy pains then []
        else ["Stakeholder \x27" ++ pystr nm ++ "\x27 needs documented needs or pain points"]
      let rs ← empathize_stakeholder_reasons rest
      pure (r1 ++ r2 ++ rs)

/-- Embeds `check_empathize_complete`. -/
def check_empathize_complete (state : Doc) : Except String (Bool × List String) := do
  let stakeholders := rootGet state "stakeholders" (.list [])
  let n ← pyLen stakeholders
  let r0 := if n < 2 then ["Need at least 2 stakeholder groups defined"] else []
  let items ← pyIter stakeholders
  let r1 ← empathize_stakeholder_reasons items
  let insights := rootGet state "insights" (.list [])
  let m ← pyLen insights
  let r2 := if m < 3 then ["Need at least 3 synthesized insights (have " ++ toString m ++ ")"] else []
  let reasons := r0 ++ r1 ++ r2
  pure (reasons.length == 0, reasons)

/-- Count of the comprehension
`[a for a in assumptions if a.get("certainty") is None or a.get("risk") is None]`. -/
def count_ungraded_assumptions : List Val → Except String Nat
  | [] => .ok 0
  | a :: rest => do
      let c ← vgetD a "certainty"
      let r ← vgetD a "risk"
      let n ← count_ungraded_assumptions rest
      pure ((if c.isNull || r.isNull then 1 else 0) + n)

/-- Count of the comprehension
`[a for a in assumptions if a.get("risk") == "high" and a.get("certainty") == "low"]`. -/
def count_low_certainty_high_risk : List Val → Except String Nat
  | [] => .ok 0
  | a :: rest => do
      let r ← vgetD a "risk"
      let c ← vgetD a "certainty"
      let n ← count_low_certainty_high_risk rest
      pure ((if r.eqStr "high" && c.eqStr "low" then 1 else 0) + n)

/-- Embeds `check_define_complete`. -/
def check_define_complete (state : Doc) : Except String (Bool × List String) := do
  let insights := rootGet state "insights" (.list [])
  let m ← pyLen insights
  let r0 := if m < 3 then ["Need at least 3 validated insights (have " ++ toString m ++ ")"] else []
  let assumptions := rootGet state "assumptions" (.list [])
  let r1 ← if pyTruthy assumptions = false then pure ["No assumptions identified"]
    else do
      let items ← pyIter assumptions
      let ung ← count_ungraded_assumptions items
      let ra := if ung == 0 then [] else [toString ung ++ " assumptions need certainty/risk grades"]
      let hr ← count_low_certainty_high_risk items
      let rb := if hr == 0 then [] else [toString hr ++ " high-risk assumptions need validation plan"]
      pure (ra ++ rb)
  let reasons := r0 ++ r1
  pure (reasons.length == 0, reasons)

/-- Count of the comprehension over ideas with `impact_grade` or
`feasibility_grade` equal to `None`. -/
def count_ungraded_ideas : List Val → Except String Nat
  | [] => .ok 0
  | i :: rest => do
      let a ← vgetD i "impact_grade"
      let b ← vgetD i "feasibility_grade"
      let n ← count_ungraded_ideas rest
      pure ((if a.isNull || b.isNull then 1 else 0) + n)

/-- Count of the comprehension over ideas with
`impact_grade in ["high", "medium"]`. -/
def count_high_impact_grade : List Val → Except String Nat
  | [] => .ok 0
  | i :: rest => do
      let a ← vgetD i "impact_grade"
      let n ← count_high_impact_grade rest
      pure ((if a.inStrList ["high", "medium"] then 1 else 0) + n)

/-- Embeds `check_ideate_complete`. -/
def check_ideate_complete (state : Doc) : Except String (Bool × List String) := do
  let ideas := rootGet state "ideas" (.list [])
  let n ← pyLen ideas
  let r0 := if n < 3 then ["Need at least 3 solution ideas (have " ++ toString n ++ ")"] else []
  let r1 ← if pyTruthy ideas then do
      let items ← pyIter ideas
      let ung ← count_ungraded_ideas items
      let ra := if ung == 0 then [] else [toString ung ++ " ideas need impact/feasibility grades"]
      let hi ← count_high_impact_grade items
      let rb := if hi < 2 then ["Need at least 2 ideas with medium/high impact"] else []
      pure (ra ++ rb)
    else pure []
  let reasons := r0 ++ r1
  pure (reasons.length == 0, reasons)

/-- Count of ideas whose `status` equals `"prototyping"`. -/
def count_status_prototyping : List Val → Except String Nat
  | [] => .ok 0
  | i :: rest => do
      let s ← vgetD i "status"
      let n ← count_status_prototyping rest
      pure ((if s.eqStr "prototyping" then 1 else 0) + n)

/-- Embeds `check_prototype_complete`. -/
def check_prototype_complete (state : Doc) : Except String (Bool × List String) := do
  let ideas := rootGet state "ideas" (.list [])
  let items ← pyIter ideas
  let k ← count_status_prototyping items
  let reasons := if k == 0 then ["At least one idea must have a prototype"] else []
  pure (reasons.length == 0, reasons)

/-- Count of ideas whose `status` is in `["validated", "implemented"]`. -/
def count_status_validated : List Val → Except String Nat
  | [] => .ok 0
  | i :: rest => do
      let s ← vgetD i "status"
      let n ← count_status_validated rest
      pure ((if s.inStrList ["validated", "implemented"] then 1 else 0) + n)

/-- Embeds `check_iterate_complete`. -/
def check_iterate_complete (state : Doc) : Except String (Bool × List String) := do
  let ideas := rootGet state "ideas" (.list [])
  let items ← pyIter ideas
  let k ← count_status_validated items
  let reasons := if k == 0 then ["At least one idea must be validated through iteration"] else []
  pure (reasons.length == 0, reasons)

/-- Embeds the checker dispatch of `main` in `check_completion.py`: an
unrecognised phase raises `ValueError`, modelled as an error value. -/
def run_phase_check (phase : String) (state : Doc) : Except String (Bool × List String) :=
  match phase with
  | "empathize" => check_empathize_complete state
  | "define" => check_define_complete state
  | "ideate" => check_ideate_complete state
  | "prototype" => check_prototype_complete state
  | "iterate" => check_iterate_complete state
  | _ => .error ("Invalid phase: " ++ phase)

end CheckCompletion

/-! Embedding of the per-editor schema validators.  Each editor script
defines its own `validate_against_schema`; the functions share the
top-level checks verbatim but each validates only its own entity list.
The bodies run inside a `try`/`except` that turns an exception into the
verdict `(False, "Validation error: ...")`; this is modelled by `VErr`
and `run_validator`. -/

/-- Outcome channel of a validator body: a reported violation, or a
Python exception caught by the surrounding `except` clause. -/
inductive VErr where
  | invalid (msg : String)
  | exn (msg : String)

/-- Lift of a raising primitive into a validator body. -/
def liftV {α : Type} : Except String α → Except VErr α
  | .ok a => .ok a
  | .error e => .error (.exn e)

/-- The required top-level fields, shared verbatim by every editor
validator. -/
def required_top_fields : List String :=
  ["project_name", "created_at", "updated_at", "phase"]

/-- Loop `for field in required_fields: if field not in data: return False, ...`. -/
def check_required_top (data : Doc) : List String → Except VErr Unit
  | [] => .ok ()
  | f :: rest =>
      if containsKey data f then check_required_top data rest
      else .error (.invalid ("Missing required field: " ++ f))

/-- The `phase` membership check shared by every editor validator. -/
def check_phase_field (data : Doc) : Except VErr Unit :=
  let v := dgetF data "phase"
  if v.inStrList valid_phases then .ok ()
  else .error (.invalid ("Invalid phase: " ++ pystr v ++ ". Must be one of " ++ pyReprStrList valid_phases))

/-- Per-item loop `for field in required: if field not in item: ...`. -/
def check_required_item (kind : String) (idx : Nat) (fs : List (String × Val)) :
    List String → Except VErr Unit
  | [] => .ok ()
  | f :: rest =>
      if containsKey fs f then check_required_item kind idx fs rest
      else .error (.invalid (kind ++ " " ++ toString idx ++ " missing required field: " ++ f))

/-- Enum membership check `item[field] not in allowed` on a field whose
presence the validator has already established. -/
def check_enum_required (kind : String) (idx : Nat) (fs : List (String × Val))
    (field : String) (allowed : List String) : Except VErr Unit :=
  let v := dgetF fs field
  if v.inStrList allowed then .ok ()
  else .error (.invalid (kind ++ " " ++ toString idx ++ " has invalid " ++ field ++ ": " ++ pystr v))

/-- Enum membership check `field in item and item[field] not in allowed`
on an optional field. -/
def check_enum_optional (kind : String) (idx : Nat) (fs : List (String × Val))
    (field : String) (allowed : List String) : Except VErr Unit :=
  if containsKey fs field then check_enum_required kind idx fs field allowed
  else .ok ()

/-- Materialisation of a validator body into the pair
`(is_valid, error_message)` returned by `validate_against_schema`,
including the `except` clause. -/
def run_validator (m : Except VErr Unit) : Bool × Option String :=
  match m with
  | .ok _ => (true, none)
  | .error (.invalid msg) => (false, some msg)
  | .error (.exn msg) => (false, some ("Validation error: " ++ msg))

namespace AddInsight

/-- Loop over `data["insights"]` in the validator of `add_insight.py`. -/
def check_insights_items : Nat → List Val → Except VErr Unit
  | _, [] => .ok ()
  | idx, v :: rest =>
      match v with
      | .obj fs => do
          check_required_item "Insight" idx fs ["id", "title", "description"]
          check_enum_optional "Insight" idx fs "confidence" ["high", "medium", "low"]
          check_insights_items (idx + 1) rest
      | _ => .error (.invalid ("Insight " ++ toString idx ++ " is not an object"))

/-- Embeds `validate_against_schema` of `add_insight.py`. -/
def validate_against_schema (data : Doc) : Bool × Option String :=
  run_validator (do
    check_required_top data required_top_fields
    check_phase_field data
    if containsKey data "insights" then do
      let items ← liftV (pyIter (dgetF data "insights"))
      check_insights_items 0 items
    else pure ())

end AddInsight

namespace GradeAssumption

/-- Loop over `data["assumptions"]` in the validator of
`grade_assumption.py`: note that `certainty` and `risk` are required and
checked against the grade enum unconditionally. -/
def check_assumptions_items : Nat → List Val → Except VErr Unit
  | _, [] => .ok ()
  | idx, v :: rest =>
      match v with
      | .obj fs => do
          check_required_item "Assumption" idx fs ["id", "description", "certainty", "risk"]
          check_enum_required "Assumption" idx fs "certainty" ["high", "medium", "low"]
          check_enum_required "Assumption" idx fs "risk" ["high", "medium", "low"]
          check_enum_optional "Assumption" idx fs "status" ["open", "validating", "validated", "invalidated"]
          check_assumptions_items (idx + 1) rest
      | _ => .error (.invalid ("Assumption " ++ toString idx ++ " is not an object"))

/-- Embeds `validate_against_schema` of `grade_assumption.py`. -/
def validate_against_schema (data : Doc) : Bool × Option String :=
  run_validator (do
    check_required_top data required_top_fields
    check_phase_field data
    if containsKey data "assumptions" then do
      let items ← liftV (pyIter (dgetF data "assumptions"))
      check_assumptions_items 0 items
    else pure ())

end GradeAssumption

namespace GradeIdea

/-- The idea status enum of `grade_idea.py`. -/
def valid_statuses : List String :=
  ["ideated", "prototyping", "iterating", "validated", "invalidated", "implemented"]

/-- Loop over `data["ideas"]` in the validator of `grade_idea.py`: the
grade fields `impact` and `feasibility` are optional, `status` is
required and checked against the status enum. -/
def check_ideas_items : Nat → List Val → Except VErr Unit
  | _, [] => .ok ()
  | idx, v :: rest =>
      match v with
      | .obj fs => do
          check_required_item "Idea" idx fs ["id", "title", "status"]
          check_enum_optional "Idea" idx fs "impact" ["high", "medium", "low"]
          check_enum_optional "Idea" idx fs "feasibility" ["high", "medium", "low"]
          check_enum_required "Idea" idx fs "status" valid_statuses
          check_ideas_items (idx + 1) rest
      | _ => .error (.invalid ("Idea " ++ toString idx ++ " is not an object"))

/-- Embeds `validate_against_schema` of `grade_idea.py`. -/
def validate_against_schema (data : Doc) : Bool × Option String :=
  run_validator (do
    check_required_top data required_top_fields
    check_phase_field data
    if containsKey data "ideas" then do
      let items ← liftV (pyIter (dgetF data "ideas"))
      check_ideas_items 0 items
    else pure ())

end GradeIdea

namespace UpdateStakeholder

/-- Loop over `data["stakeholders"]` in the validator of
`update_stakeholder.py`. -/
def check_stakeholders_items : Nat → List Val → Except VErr Unit
  | _, [] => .ok ()
  | idx, v :: rest =>
      match v with
      | .obj fs => do
          check_required_item "Stakeholder" idx fs ["id", "name", "type"]
          check_enum_required "Stakeholder" idx fs "type" ["group", "individual"]
          check_stakeholders_items (idx + 1) rest
      | _ => .error (.invalid ("Stakeholder " ++ toString idx ++ " is not an object"))

/-- Embeds `validate_against_schema` of `update_stakeholder.py`. -/
def validate_against_schema (data : Doc) : Bool × Option String :=
  run_validator (do
    check_required_top data required_top_fields
    check_phase_field data
    if containsKey data "stakeholders" then do
      let items ← liftV (pyIter (dgetF data "stakeholders"))
      check_stakeholders_items 0 items
    else pure ())

end UpdateStakeholder

namespace RecordPlayback

/-- Loop over `data["playbacks"]` in the validator of
`record_playback.py`: only required-field presence is checked. -/
def check_playbacks_items : Nat → List Val → Except VErr Unit
  | _, [] => .ok ()
  | idx, v :: rest =>
      match v with
      | .obj fs => do
          check_required_item "Playback" idx fs ["id", "date", "audience"]
          check_playbacks_items (idx + 1) rest
      | _ => .error (.invalid ("Playback " ++ toString idx ++ " is not an object"))

/-- Embeds `validate_against_schema` of `record_playback.py`. -/
def validate_against_schema (data : Doc) : Bool × Option String :=
  run_validator (do
    check_required_top data required_top_fields
    check_phase_field data
    if containsKey data "playbacks" then do
      let items ← liftV (pyIter (dgetF data "playbacks"))
      check_playbacks_items 0 items
    else pure ())

end RecordPlayback

namespace UpdatePhase

/-- Embeds `validate_against_schema` of `update_phase.py`: top-level
fields and `phase` membership only. -/
def validate_against_schema (data : Doc) : Bool × Option String :=
  run_validator (do
    check_required_top data required_top_fields
    check_phase_field data)

end UpdatePhase

namespace ValidateState

/-- Embeds `validate_structure` of `validate_state.py`: collects all
missing required top-level fields, then the `phase` membership error. -/
def validate_structure (state : Doc) : List String :=
  let required := ["project_name", "problem_statement", "phase", "stakeholders",
                   "assumptions", "research_plan", "insights", "ideas", "playbacks"]
  let errors := required.filterMap (fun f =>
    if containsKey state f then none else some ("Missing required field: " ++ f))
  let phaseV := rootGet state "phase" .null
  let perrs := if phaseV.inStrList valid_phases then []
    else ["Invalid phase: " ++ pystr phaseV ++ ". Must be one of " ++ pyReprStrList valid_phases]
  errors ++ perrs

end ValidateState

/-! Embedding of the six editors.  Each editor is a function of the
loaded document and its parameters; `now` stands for the value of
`datetime.now(timezone.utc).isoformat()`.  The body of every editor runs
inside `try`/`except Exception`, which is modelled by the two error
channels of `EditErr`: `envelope` for an error result returned by the
code itself, `exn` for a raised exception, which the handler wraps in an
operation-specific message. -/

/-- Error channel of an editor body. -/
inductive EditErr where
  | envelope (msg : String)
  | exn (msg : String)

/-- Lift of a raising primitive into an editor body. -/
def liftE {α : Type} : Except String α → Except EditErr α
  | .ok a => .ok a
  | .error e => .error (.exn e)

/-- Result status of an editor invocation. -/
inductive Status where
  | success
  | error
deriving DecidableEq

/-- Result of an editor invocation: the result envelope
`(status, data, error)` printed by the script, together with `write`,
the document written to disk by the atomic tempfile-plus-rename step
(`none` when the editor returned before writing). -/
structure EditResult where
  status : Status
  data : Option Val
  error : Option String
  write : Option Doc

/-- Wraps an editor body into an `EditResult`: the success path performs
the atomic write of the final document, both error channels perform no
write, and a raised exception is wrapped in the operation message
`opErr` by the `except Exception` handler. -/
def finishEdit (opErr : String) (r : Except EditErr (Val × Doc)) : EditResult :=
  match r with
  | .ok (d, st) => ⟨Status.success, some d, none, some st⟩
  | .error (.envelope msg) => ⟨Status.error, none, some msg, none⟩
  | .error (.exn msg) => ⟨Status.error, none, some (opErr ++ msg), none⟩

/-- Find loop `for item in state[key]: if item["id"] == target` shared by
the editors, returning the index and fields of the first match. -/
def find_by_id : List Val → String → Nat → Except String (Option (Nat × List (String × Val)))
  | [], _, _ => .ok none
  | v :: rest, target, idx =>
      match v with
      | .obj fs =>
          match lookupVal fs "id" with
          | some i =>
              if i.eqStr target then .ok (some (idx, fs))
              else find_by_id rest target (idx + 1)
          | none => .error ("KeyError: \x27id\x27")
      | w => .error ("TypeError: \x27" ++ pyTypeName w ++ "\x27 object is not subscriptable by string")

/-- List-field update shared by `update_stakeholder.py` (lines 149 to
166, for `needs`, `pain_points` and `notes_links`) and `grade_idea.py`
(lines 157 to 161, for `prototype_links`): when the append flag is set
and the field exists, the new items are concatenated onto
`item.get(field, [])`, otherwise the new list replaces the field. -/
def applyListUpdate (fs : List (String × Val)) (field : String)
    (newItems : Option (List String)) (append : Bool) : Except String (List (String × Val)) :=
  match newItems with
  | none => .ok fs
  | some xs =>
      if append && containsKey fs field then do
        let merged ← pyAddStrs ((lookupVal fs field).getD (Val.list [])) xs
        .ok (dset fs field merged)
      else .ok (dset fs field (Val.list (xs.map Val.str)))

/-- Body of `add_insight` from `add_insight.py`, from the point where the
document has been loaded. -/
def add_insight_core (state : Doc) (insight_id title description : String)
    (confidence : Option String) (sources : Option (List String))
    (implications : Option String) (now : String) : Except EditErr (Val × Doc) := do
  let state := if containsKey state "insights" then state else dset state "insights" (.list [])
  let items ← liftE (pyIter (dgetF state "insights"))
  let dup ← liftE (find_by_id items insight_id 0)
  if dup.isSome then
    throw (.envelope ("Insight with id \x27" ++ insight_id ++ "\x27 already exists"))
  let ni : List (String × Val) :=
    [("id", Val.str insight_id), ("title", Val.str title), ("description", Val.str description)]
  let ni ← match confidence with
    | none => pure ni
    | some c =>
        if ["high", "medium", "low"].contains c then pure (dset ni "confidence" (Val.str c))
        else throw (.envelope ("Invalid confidence: " ++ c ++ ". Must be high, medium, or low"))
  let ni := match sources with
    | some ss => dset ni "sources" (Val.list (ss.map Val.str))
    | none => ni
  let ni := match implications with
    | some s => dset ni "implications" (Val.str s)
    | none => ni
  let orig ← liftE (pyAppendTarget (dgetF state "insights"))
  let state := dset state "insights" (Val.list (orig ++ [Val.obj ni]))
  let state := dset state "updated_at" (Val.str now)
  match AddInsight.validate_against_schema state with
  | (true, _) =>
      pure (Val.obj [("insight_id", Val.str insight_id), ("insight", Val.obj ni),
                     ("updated_at", Val.str now)], state)
  | (false, err) => throw (.envelope ("Schema validation failed: " ++ err.getD "None"))

/-- Embeds `add_insight`. -/
def add_insight (state : Doc) (insight_id title description : String)
    (confidence : Option String) (sources : Option (List String))
    (implications : Option String) (now : String) : EditResult :=
  finishEdit "Error adding insight: "
    (add_insight_core state insight_id title description confidence sources implications now)

/-- Body of `grade_assumption` from `grade_assumption.py`, from the point
where the document has been loaded. -/
def grade_assumption_core (state : Doc) (assumption_id : String)
    (certainty risk validation_plan status : Option String) (now : String) :
    Except EditErr (Val × Doc) := do
  if containsKey state "assumptions" = false then
    throw (.envelope "No assumptions array found in currentstate.json")
  let items ← liftE (pyIter (dgetF state "assumptions"))
  let found ← liftE (find_by_id items assumption_id 0)
  match found with
  | none => throw (.envelope ("Assumption with id \x27" ++ assumption_id ++ "\x27 not found"))
  | some (idx, fs) => do
      let fs ← match certainty with
        | none => pure fs
        | some c =>
            if ["high", "medium", "low"].contains c then pure (dset fs "certainty" (Val.str c))
            else throw (.envelope ("Invalid certainty: " ++ c ++ ". Must be high, medium, or low"))
      let fs ← match risk with
        | none => pure fs
        | some r =>
            if ["high", "medium", "low"].contains r then pure (dset fs "risk" (Val.str r))
            else throw (.envelope ("Invalid risk: " ++ r ++ ". Must be high, medium, or low"))
      let fs := match validation_plan with
        | some vp => dset fs "validation_plan" (Val.str vp)
        | none => fs
      let fs ← match status with
        | none => pure fs
        | some s =>
            if ["open", "validating", "validated", "invalidated"].contains s then
              pure (dset fs "status" (Val.str s))
            else throw (.envelope ("Invalid status: " ++ s ++ ". Must be open, validating, validated, or invalidated"))
      let state := dset state "assumptions" (Val.list (items.set idx (Val.obj fs)))
      let state := dset state "updated_at" (Val.str now)
      match GradeAssumption.validate_against_schema state with
      | (true, _) =>
          pure (Val.obj [("assumption_id", Val.str assumption_id), ("assumption", Val.obj fs),
                         ("updated_at", Val.str now)], state)
      | (false, err) => throw (.envelope ("Schema validation failed: " ++ err.getD "None"))

/-- Embeds `grade_assumption`. -/
def grade_assumption (state : Doc) (assumption_id : String)
    (certainty risk validation_plan status : Option String) (now : String) : EditResult :=
  finishEdit "Error grading assumption: "
    (grade_assumption_core state assumption_id certainty risk validation_plan status now)

/-- Body of `grade_idea` from `grade_idea.py`, from the point where the
document has been loaded. -/
def grade_idea_core (state : Doc) (idea_id : String)
    (impact feasibility status idea_doc_link : Option String)
    (prototype_links : Option (List String)) (append_prototype_links : Bool)
    (now : String) : Except EditErr (Val × Doc) := do
  if containsKey state "ideas" = false then
    throw (.envelope "No ideas array found in currentstate.json")
  let items ← liftE (pyIter (dgetF state "ideas"))
  let found ← liftE (find_by_id items idea_id 0)
  match found with
  | none => throw (.envelope ("Idea with id \x27" ++ idea_id ++ "\x27 not found"))
  | some (idx, fs) => do
      let fs ← match impact with
        | none => pure fs
        | some c =>
            if ["high", "medium", "low"].contains c then pure (dset fs "impact" (Val.str c))
            else throw (.envelope ("Invalid impact: " ++ c ++ ". Must be high, medium, or low"))
      let fs ← match feasibility with
        | none => pure fs
        | some c =>
            if ["high", "medium", "low"].contains c then pure (dset fs "feasibility" (Val.str c))
            else throw (.envelope ("Invalid feasibility: " ++ c ++ ". Must be high, medium, or low"))
      let fs ← match status with
        | none => pure fs
        | some s =>
            if GradeIdea.valid_statuses.contains s then pure (dset fs "status" (Val.str s))
            else throw (.envelope ("Invalid status: " ++ s ++ ". Must be one of " ++ pyReprStrList GradeIdea.valid_statuses))
      let fs := match idea_doc_link with
        | some l => dset fs "idea_doc_link" (Val.str l)
        | none => fs
      let fs ← liftE (applyListUpdate fs "prototype_links" prototype_links append_prototype_links)
      let state := dset state "ideas" (Val.list (items.set idx (Val.obj fs)))
      let state := dset state "updated_at" (Val.str now)
      match GradeIdea.validate_against_schema state with
      | (true, _) =>
          pure (Val.obj [("idea_id", Val.str idea_id), ("idea", Val.obj fs),
                         ("updated_at", Val.str now)], state)
      | (false, err) => throw (.envelope ("Schema validation failed: " ++ err.getD "None"))

/-- Embeds `grade_idea`. -/
def grade_idea (state : Doc) (idea_id : String)
    (impact feasibility status idea_doc_link : Option String)
    (prototype_links : Option (List String)) (append_prototype_links : Bool)
    (now : String) : EditResult :=
  finishEdit "Error grading idea: "
    (grade_idea_core state idea_id impact feasibility status idea_doc_link
      prototype_links append_prototype_links now)

/-- Body of `update_stakeholder` from `update_stakeholder.py`, from the
point where the document has been loaded.  In the create branch the new
stakeholder is appended to the list and subsequently updated in place,
so the shared update section operates on the element at index `idx` of
`items`. -/
def update_stakeholder_core (state : Doc) (stakeholder_id : String)
    (name stakeholder_type role : Option String)
    (needs pain_points notes_links : Option (List String))
    (append_needs append_pain_points append_notes : Bool) (now : String) :
    Except EditErr (Val × Doc) := do
  let state := if containsKey state "stakeholders" then state else dset state "stakeholders" (.list [])
  let items0 ← liftE (pyIter (dgetF state "stakeholders"))
  let found ← liftE (find_by_id items0 stakeholder_id 0)
  let (items, idx, fs0) ←
    match found with
    | some (idx, fs) => pure (items0, idx, fs)
    | none =>
        match name, stakeholder_type with
        | some n, some t =>
            if n = "" ∨ t = "" then
              throw (.envelope "name and type are required for new stakeholders")
            else do
              let orig ← liftE (pyAppendTarget (dgetF state "stakeholders"))
              let fs : List (String × Val) :=
                [("id", Val.str stakeholder_id), ("name", Val.str n), ("type", Val.str t)]
              pure (orig ++ [Val.obj fs], orig.length, fs)
        | _, _ => throw (.envelope "name and type are required for new stakeholders")
  let fs := match name with
    | some n => dset fs0 "name" (Val.str n)
    | none => fs0
  let fs ← match stakeholder_type with
    | none => pure fs
    | some t =>
        if ["group", "individual"].contains t then pure (dset fs "type" (Val.str t))
        else throw (.envelope ("Invalid type: " ++ t ++ ". Must be \x27group\x27 or \x27individual\x27"))
  let fs := match role with
    | some r => dset fs "role" (Val.str r)
    | none => fs
  let fs ← liftE (applyListUpdate fs "needs" needs append_needs)
  let fs ← liftE (applyListUpdate fs "pain_points" pain_points append_pain_points)
  let fs ← liftE (applyListUpdate fs "notes_links" notes_links append_notes)
  let state := dset state "stakeholders" (Val.list (items.set idx (Val.obj fs)))
  let state := dset state "updated_at" (Val.str now)
  match UpdateStakeholder.validate_against_schema state with
  | (true, _) =>
      pure (Val.obj [("stakeholder_id", Val.str stakeholder_id), ("stakeholder", Val.obj fs),
                     ("updated_at", Val.str now)], state)
  | (false, err) => throw (.envelope ("Schema validation failed: " ++ err.getD "None"))

/-- Embeds `update_stakeholder`. -/
def update_stakeholder (state : Doc) (stakeholder_id : String)
    (name stakeholder_type role : Option String)
    (needs pain_points notes_links : Option (List String))
    (append_needs append_pain_points append_notes : Bool) (now : String) : EditResult :=
  finishEdit "Error updating stakeholder: "
    (update_stakeholder_core state stakeholder_id name stakeholder_type role
      needs pain_points notes_links append_needs append_pain_points append_notes now)

/-- Number of days in a month of the Gregorian calendar. -/
def daysInMonth (y m : Nat) : Nat :=
  if m = 2 then (if (y % 4 == 0 && y % 100 != 0) || y % 400 == 0 then 29 else 28)
  else if [1, 3, 5, 7, 8, 10, 12].contains m then 31
  else if [4, 6, 9, 11].contains m then 30
  else 0

/-- Split of a character list at every dash, mirroring
`"…".split("-")`. -/
def splitDash : List Char → List (List Char)
  | [] => [[]]
  | c :: rest =>
      match splitDash rest with
      | [] => []
      | h :: t => if c = '-' then [] :: h :: t else (c :: h) :: t

/-- Numeric test for a character. -/
def isDigitChar (c : Char) : Bool :=
  48 ≤ c.toNat && c.toNat ≤ 57

/-- Value of a digit string. -/
def natOfDigits (cs : List Char) : Nat :=
  cs.foldl (fun a c => a * 10 + (c.toNat - 48)) 0

/-- Modelled from the source line `datetime.strptime(date, "%Y-%m-%d")`
of `record_playback.py` for zero-padded dates: accepts strings of shape
YYYY-MM-DD denoting a valid calendar date, including leap years and the
`datetime.MINYEAR = 1` lower bound on the year (year 0000 raises in
Python); four digits bound the year by 9999 = `datetime.MAXYEAR`. -/
def strptime_ymd_ok (s : String) : Bool :=
  match splitDash s.toList with
  | [y, m, d] =>
      y.length == 4 && m.length == 2 && d.length == 2 &&
      y.all isDigitChar && m.all isDigitChar && d.all isDigitChar &&
      (let yn := natOfDigits y
       let mn := natOfDigits m
       let dn := natOfDigits d
       1 ≤ yn && 1 ≤ mn && mn ≤ 12 && 1 ≤ dn && dn ≤ daysInMonth yn mn)
  | _ => false

/-- Body of `record_playback` from `record_playback.py`, from the point
where the document has been loaded. -/
def record_playback_core (state : Doc) (playback_id date : String) (audience : List String)
    (phase : Option String) (artifacts_link : Option String) (decisions : Option (List String))
    (now : String) : Except EditErr (Val × Doc) := do
  let state := if containsKey state "playbacks" then state else dset state "playbacks" (.list [])
  let items ← liftE (pyIter (dgetF state "playbacks"))
  let dup ← liftE (find_by_id items playback_id 0)
  if dup.isSome then
    throw (.envelope ("Playback with id \x27" ++ playback_id ++ "\x27 already exists"))
  if strptime_ymd_ok date = false then
    throw (.envelope ("Invalid date format: " ++ date ++ ". Must be YYYY-MM-DD"))
  let np : List (String × Val) :=
    [("id", Val.str playback_id), ("date", Val.str date),
     ("audience", Val.list (audience.map Val.str))]
  let np ← match phase with
    | none => pure np
    | some p =>
        if valid_phases.contains p then pure (dset np "phase" (Val.str p))
        else throw (.envelope ("Invalid phase: " ++ p ++ ". Must be one of " ++ pyReprStrList valid_phases))
  let np := match artifacts_link with
    | some a => dset np "artifacts_link" (Val.str a)
    | none => np
  let np := match decisions with
    | some ds => dset np "decisions" (Val.list (ds.map Val.str))
    | none => np
  let orig ← liftE (pyAppendTarget (dgetF state "playbacks"))
  let state := dset state "playbacks" (Val.list (orig ++ [Val.obj np]))
  let state := dset state "updated_at" (Val.str now)
  match RecordPlayback.validate_against_schema state with
  | (true, _) =>
      pure (Val.obj [("playback_id", Val.str playback_id), ("playback", Val.obj np),
                     ("updated_at", Val.str now)], state)
  | (false, err) => throw (.envelope ("Schema validation failed: " ++ err.getD "None"))

/-- Embeds `record_playback`. -/
def record_playback (state : Doc) (playback_id date : String) (audience : List String)
    (phase : Option String) (artifacts_link : Option String) (decisions : Option (List String))
    (now : String) : EditResult :=
  finishEdit "Error recording playback: "
    (record_playback_core state playback_id date audience phase artifacts_link decisions now)

/-- Body of `update_phase` from `update_phase.py`, from the point where
the document has been loaded (the phase argument check precedes the load
in the script; in this pure model the order is immaterial). -/
def update_phase_core (state : Doc) (new_phase : String) (now : String) :
    Except EditErr (Val × Doc) := do
  if valid_phases.contains new_phase = false then
    throw (.envelope ("Invalid phase: " ++ new_phase ++ ". Must be one of " ++ pyReprStrList valid_phases))
  let old_phase := rootGet state "phase" Val.null
  let state := dset state "phase" (Val.str new_phase)
  let state := dset state "updated_at" (Val.str now)
  match UpdatePhase.validate_against_schema state with
  | (true, _) =>
      pure (Val.obj [("old_phase", old_phase), ("new_phase", Val.str new_phase),
                     ("updated_at", Val.str now)], state)
  | (false, err) => throw (.envelope ("Schema validation failed: " ++ err.getD "None"))

/-- Embeds `update_phase`. -/
def update_phase (state : Doc) (new_phase : String) (now : String) : EditResult :=
  finishEdit "Error updating phase: " (update_phase_core state new_phase now)

/-! Basic lemmas about the dict model. -/

theorem lookupVal_dset (m : Doc) (k q : String) (v : Val) :
    lookupVal (dset m k v) q = if q = k then some v else lookupVal m q := by
  induction m with
  | nil =>
      by_cases h : q = k
      · subst h; simp [dset, lookupVal]
      · simp only [dset, lookupVal, if_neg h, if_neg (fun hh : k = q => h hh.symm)]
  | cons p rest ih =>
      obtain ⟨a, b⟩ := p
      by_cases h1 : a = k
      · subst h1
        by_cases h2 : a = q
        · subst h2; simp [dset, lookupVal]
        · simp only [dset, if_pos rfl, lookupVal, if_neg h2,
            if_neg (fun hh : q = a => h2 hh.symm)]
      · by_cases h2 : a = q
        · subst h2
          simp [dset, lookupVal, h1]
        · simp only [dset, if_neg h1, lookupVal, if_neg h2, ih]

theorem containsKey_dset (m : Doc) (k q : String) (v : Val) :
    containsKey (dset m k v) q = if q = k then true else containsKey m q := by
  by_cases h : q = k <;> simp [containsKey, lookupVal_dset, h]

theorem containsKey_of_lookupVal {m : Doc} {k : String} {v : Val}
    (h : lookupVal m k = some v) : containsKey m k = true := by
  simp [containsKey, h]

theorem list_get?_set_ne {α : Type} (l : List α) (i j : Nat) (x : α) (h : j ≠ i) :
    (l.set i x).get? j = l.get? j := by
  induction l generalizing i j with
  | nil => simp
  | cons a t ih =>
      cases i with
      | zero =>
          cases j with
          | zero => exact absurd rfl h
          | succ j2 => simp [List.set]
      | succ i2 =>
          cases j with
          | zero => simp [List.set]
          | succ j2 =>
              simp only [List.set, List.get?]
              exact ih i2 j2 (fun hh => h (by rw [hh]))

theorem finishEdit_error_write (op : String) (r : Except EditErr (Val × Doc))
    (h : (finishEdit op r).status = Status.error) : (finishEdit op r).write = none := by
  cases r with
  | ok p =>
      obtain ⟨d, st⟩ := p
      simp [finishEdit] at h
  | error e => cases e <;> simp [finishEdit]

theorem ebind_ok {ε α β : Type} (a : α) (f : α → Except ε β) :
    ((Except.ok a : Except ε α) >>= f) = f a := rfl

theorem ebind_err {ε α β : Type} (e : ε) (f : α → Except ε β) :
    ((Except.error e : Except ε α) >>= f) = Except.error e := rfl

theorem epure_eq {ε α : Type} (a : α) : (pure a : Except ε α) = Except.ok a := rfl

theorem ethrow_eq {ε α : Type} (e : ε) : (throw e : Except ε α) = Except.error e := rfl

theorem liftE_ok {α : Type} (a : α) : liftE (Except.ok a) = Except.ok a := rfl

theorem liftV_ok {α : Type} (a : α) : liftV (Except.ok a) = Except.ok a := rfl

theorem dgetF_dset_self (m : Doc) (k : String) (v : Val) : dgetF (dset m k v) k = v := by
  simp [dgetF, lookupVal_dset]

theorem dgetF_dset_ne (m : Doc) (k q : String) (v : Val) (h : q ≠ k) :
    dgetF (dset m k v) q = dgetF m q := by
  simp [dgetF, lookupVal_dset, h]

theorem containsKey_dset_self (m : Doc) (k : String) (v : Val) :
    containsKey (dset m k v) k = true := by
  simp [containsKey_dset]

theorem containsKey_dset_ne (m : Doc) (k q : String) (v : Val) (h : q ≠ k) :
    containsKey (dset m k v) q = containsKey m q := by
  simp [containsKey_dset, h]

/-! Concrete documents used by the claim theorems. -/

/-- The four required top-level fields with the given phase. -/
def topFields (phase : String) : Doc :=
  [("project_name", Val.str "demo"), ("created_at", Val.str "2026-01-01T00:00:00+00:00"),
   ("updated_at", Val.str "2026-01-01T00:00:00+00:00"), ("phase", Val.str phase)]

/-- A well-formed insight entity. -/
def insightV (i : String) : Val :=
  Val.obj [("id", Val.str i), ("title", Val.str ("T" ++ i)), ("description", Val.str ("D" ++ i))]

/-- Three distinct insights. -/
def threeInsights : Val := Val.list [insightV "i1", insightV "i2", insightV "i3"]

/-- An assumption graded certainty=low and risk=high, with or without a
validation plan. -/
def assumption_low_high (vplan : Option String) : Val :=
  Val.obj ([("id", Val.str "a1"), ("description", Val.str "users want this"),
            ("certainty", Val.str "low"), ("risk", Val.str "high")] ++
           (match vplan with | some p => [("validation_plan", Val.str p)] | none => []))

/-- A define-phase document with 3 insights and one fully graded
low-certainty/high-risk assumption that carries a validation plan. -/
def defineDocWithPlan : Doc :=
  topFields "define" ++
    [("insights", threeInsights),
     ("assumptions", Val.list [assumption_low_high (some "interview ten users")])]

/-- The same document with the validation plan removed. -/
def defineDocNoPlan : Doc :=
  topFields "define" ++
    [("insights", threeInsights), ("assumptions", Val.list [assumption_low_high none])]

/-- An idea whose `impact` and `feasibility` fields (the fields written
by `grade_idea`) are set. -/
def gradedIdea (i impact feas : String) : Val :=
  Val.obj [("id", Val.str i), ("title", Val.str ("T" ++ i)), ("status", Val.str "ideated"),
           ("impact", Val.str impact), ("feasibility", Val.str feas)]

/-- An ideate-phase document with three graded ideas, two of impact high
or medium. -/
def ideateDoc : Doc :=
  topFields "ideate" ++
    [("ideas", Val.list [gradedIdea "d1" "high" "high", gradedIdea "d2" "medium" "high",
                         gradedIdea "d3" "low" "medium"])]

/-- An idea carrying only its required fields. -/
def ideaBare (i : String) : Val :=
  Val.obj [("id", Val.str i), ("title", Val.str ("T" ++ i)), ("status", Val.str "ideated")]

/-- A document with one ungraded idea. -/
def ideaDoc1 : Doc := topFields "ideate" ++ [("ideas", Val.list [ideaBare "d1"])]

/-- An assumption whose grades are still null. -/
def ungradedAssumption : Val :=
  Val.obj [("id", Val.str "a1"), ("description", Val.str "users want this"),
           ("certainty", Val.null), ("risk", Val.null)]

/-- A define-phase document with one ungraded assumption. -/
def defineDocUngraded : Doc :=
  topFields "define" ++
    [("insights", threeInsights), ("assumptions", Val.list [ungradedAssumption])]

/-- A document whose stakeholder list contains a non-object entry. -/
def badStakeholderDoc : Doc :=
  topFields "empathize" ++ [("stakeholders", Val.list [Val.str "x"])]

/-- A stakeholder whose `type` is outside the declared enum. -/
def corruptStakeholder : Val :=
  Val.obj [("id", Val.str "s1"), ("name", Val.str "Engineers"), ("type", Val.str "robot")]

/-- A document corrupted by a stakeholder of invalid type. -/
def corruptDoc : Doc :=
  topFields "empathize" ++ [("stakeholders", Val.list [corruptStakeholder])]

/-- The document `add_insight` persists when run on `corruptDoc`. -/
def corruptWrite : Doc :=
  [("project_name", Val.str "demo"), ("created_at", Val.str "2026-01-01T00:00:00+00:00"),
   ("updated_at", Val.str "TS"), ("phase", Val.str "empathize"),
   ("stakeholders", Val.list [corruptStakeholder]),
   ("insights", Val.list [Val.obj [("id", Val.str "i9"), ("title", Val.str "T9"),
                                   ("description", Val.str "D9")]])]

/-- Fields of the idea produced by grading `ideaBare "d1"` with
impact=high and feasibility=medium. -/
def gradedWriteIdeaFields : List (String × Val) :=
  [("id", Val.str "d1"), ("title", Val.str "Td1"), ("status", Val.str "ideated"),
   ("impact", Val.str "high"), ("feasibility", Val.str "medium")]

/-- The document `grade_idea` persists when grading the idea of `ideaDoc1`. -/
def ideateWrite : Doc :=
  [("project_name", Val.str "demo"), ("created_at", Val.str "2026-01-01T00:00:00+00:00"),
   ("updated_at", Val.str "TS"), ("phase", Val.str "ideate"),
   ("ideas", Val.list [Val.obj gradedWriteIdeaFields])]

/-- A valid stakeholder entity. -/
def shOk : Val :=
  Val.obj [("id", Val.str "s1"), ("name", Val.str "Engineers"), ("type", Val.str "group")]

/-- A fully graded assumption. -/
def gradedAssumptionMM : Val :=
  Val.obj [("id", Val.str "a1"), ("description", Val.str "d"),
           ("certainty", Val.str "medium"), ("risk", Val.str "medium")]

/-- A valid playback entity. -/
def pbOk : Val :=
  Val.obj [("id", Val.str "p1"), ("date", Val.str "2026-01-15"),
           ("audience", Val.list [Val.str "LT"])]

/-- A document in which every entity list contains two entries with the
same id. -/
def dupDoc : Doc :=
  topFields "define" ++
    [("problem_statement", Val.str "p"), ("research_plan", Val.str "r"),
     ("stakeholders", Val.list [shOk, shOk]),
     ("assumptions", Val.list [gradedAssumptionMM, gradedAssumptionMM]),
     ("ideas", Val.list [ideaBare "d1", ideaBare "d1"]),
     ("insights", Val.list [insightV "i1", insightV "i1"]),
     ("playbacks", Val.list [pbOk, pbOk])]

/-! Claim theorems. -/

/-- C1: the claim states that the define gate treats the validation-plan
rule as unmet only for low-certainty/high-risk assumptions lacking a
plan.  The code disagrees: `check_define_complete` never inspects
`validation_plan`, so a define-phase document with 3 insights and one
fully graded low/high assumption CARRYING a validation plan still
evaluates to complete=false with the validation-plan reason, and the
output is identical after the plan is removed.  This contradicts the
reason text of the function itself ("need validation plan") and makes the
`validation_plan` parameter of `grade_assumption` unable to ever satisfy
the gate: a code bug. -/
theorem C1_define_gate_ignores_validation_plan :
    CheckCompletion.check_define_complete defineDocWithPlan =
      .ok (false, ["1 high-risk assumptions need validation plan"]) ∧
    CheckCompletion.check_define_complete defineDocNoPlan =
      .ok (false, ["1 high-risk assumptions need validation plan"]) :=
  ⟨rfl, rfl⟩

/-- C2: the claim states that a document whose 3 ideas all carry the
fields written by `grade_idea` (named `impact` and `feasibility`), with
2 of impact high or medium, evaluates ideate as complete.  The code
disagrees: `check_ideate_complete` reads `impact_grade` and
`feasibility_grade`, fields no editor ever writes, so the gate reports
all ideas ungraded and fewer than 2 high-impact ideas.  The second and
third conjuncts show that `grade_idea` indeed writes `impact` and
`feasibility` and not `impact_grade`: a code bug (the gate can never be
satisfied through the only grading editor). -/
theorem C2_ideate_gate_reads_wrong_fields :
    CheckCompletion.check_ideate_complete ideateDoc =
      .ok (false, ["3 ideas need impact/feasibility grades",
                   "Need at least 2 ideas with medium/high impact"]) ∧
    (grade_idea ideaDoc1 "d1" (some "high") (some "medium") none none none false "TS").status =
      Status.success ∧
    (grade_idea ideaDoc1 "d1" (some "high") (some "medium") none none none false "TS").write =
      some ideateWrite ∧
    lookupVal gradedWriteIdeaFields "impact" = some (Val.str "high") ∧
    lookupVal gradedWriteIdeaFields "impact_grade" = none :=
  ⟨rfl, rfl, rfl, rfl, rfl⟩

/-- C7: the claim states that grading only `certainty` of an assumption
whose `risk` is still null succeeds and leaves `risk` null.  The code
disagrees: the validator of `grade_assumption.py` requires `risk` to be
present AND inside the grade enum (it lacks the presence guard its
sibling in `grade_idea.py` has), so the call fails with a
SchemaViolation on the unmodified null `risk` and nothing is written —
making an initial partial grading through the optional parameters of
the editor impossible: a code bug. -/
theorem C7_certainty_only_grade_rejected :
    (grade_assumption defineDocUngraded "a1" (some "high") none none none "TS").status =
      Status.error ∧
    (grade_assumption defineDocUngraded "a1" (some "high") none none none "TS").error =
      some "Schema validation failed: Assumption 0 has invalid risk: None" ∧
    (grade_assumption defineDocUngraded "a1" (some "high") none none none "TS").write = none :=
  ⟨rfl, rfl, rfl⟩

/-- C5 counterexample: the claim states the phase evaluator never errors,
even on an entity list containing non-object entries.  On a document
whose stakeholder list contains the string "x", `check_empathize_complete`
raises `AttributeError` (modelled as an error value), which `main` turns
into an error envelope rather than a (complete, reasons) report. -/
theorem C5_counterexample_nonobject_entry_raises :
    CheckCompletion.run_phase_check "empathize" badStakeholderDoc =
      .error "AttributeError: \x27str\x27 object has no attribute \x27get\x27" :=
  rfl

/-- C3 counterexample: the claim states every editor re-validates the
whole document against the full schema (all entity kinds), so a
corruption anywhere fails with SchemaViolation and is never persisted.
On a document containing a stakeholder of type "robot", `add_insight`
succeeds and persists the corrupted document; the persisted document is
rejected by the stakeholder schema of `update_stakeholder.py`. -/
theorem C3_counterexample_corruption_persisted :
    (add_insight corruptDoc "i9" "T9" "D9" none none none "TS").status = Status.success ∧
    (add_insight corruptDoc "i9" "T9" "D9" none none none "TS").write = some corruptWrite ∧
    UpdateStakeholder.validate_against_schema corruptWrite =
      (false, some "Stakeholder 0 has invalid type: robot") :=
  ⟨rfl, rfl, rfl⟩

/-- A document already containing the insight "i1". -/
def insightsDoc1 : Doc :=
  topFields "empathize" ++ [("insights", Val.list [insightV "i1"])]

/-- C4: every editor invocation that ends with status=error performs no
write (first six conjuncts, one per editor, universally over documents
and parameters), and in particular submitting the invalid idea status
"bogus" and adding an insight with an existing id each fail with the
expected message and perform no write. -/
theorem C4_error_results_perform_no_write :
    (∀ state iid t dsc c src imp now,
       (add_insight state iid t dsc c src imp now).status = Status.error →
       (add_insight state iid t dsc c src imp now).write = none) ∧
    (∀ state aid c r vp st now,
       (grade_assumption state aid c r vp st now).status = Status.error →
       (grade_assumption state aid c r vp st now).write = none) ∧
    (∀ state iid im fe st dl pl ap now,
       (grade_idea state iid im fe st dl pl ap now).status = Status.error →
       (grade_idea state iid im fe st dl pl ap now).write = none) ∧
    (∀ state sid n t ro ne pp nl a1 a2 a3 now,
       (update_stakeholder state sid n t ro ne pp nl a1 a2 a3 now).status = Status.error →
       (update_stakeholder state sid n t ro ne pp nl a1 a2 a3 now).write = none) ∧
    (∀ state pid d au ph al de now,
       (record_playback state pid d au ph al de now).status = Status.error →
       (record_playback state pid d au ph al de now).write = none) ∧
    (∀ state ph now,
       (update_phase state ph now).status = Status.error →
       (update_phase state ph now).write = none) ∧
    (grade_idea ideaDoc1 "d1" none none (some "bogus") none none false "TS").status =
      Status.error ∧
    (grade_idea ideaDoc1 "d1" none none (some "bogus") none none false "TS").error =
      some "Invalid status: bogus. Must be one of [\x27ideated\x27, \x27prototyping\x27, \x27iterating\x27, \x27validated\x27, \x27invalidated\x27, \x27implemented\x27]" ∧
    (grade_idea ideaDoc1 "d1" none none (some "bogus") none none false "TS").write = none ∧
    (add_insight insightsDoc1 "i1" "T" "D" none none none "TS").status = Status.error ∧
    (add_insight insightsDoc1 "i1" "T" "D" none none none "TS").error =
      some "Insight with id \x27i1\x27 already exists" ∧
    (add_insight insightsDoc1 "i1" "T" "D" none none none "TS").write = none := by
  refine ⟨?_, ?_, ?_, ?_, ?_, ?_, rfl, rfl, rfl, rfl, rfl, rfl⟩ <;>
    · intros
      exact finishEdit_error_write _ _ (by assumption)

/-- C4 witness: concrete error invocations of all six editors, obtained
by applying the universal conjuncts of the theorem. -/
theorem C4_error_results_perform_no_write_witness :
    (add_insight [] "i1" "T" "D" (some "wrong") none none "TS").write = none ∧
    (grade_assumption [] "a1" none none none none "TS").write = none ∧
    (grade_idea [] "d1" none none none none none false "TS").write = none ∧
    (update_stakeholder [] "s1" none none none none none none false false false "TS").write = none ∧
    (record_playback [] "p1" "bad-date" [] none none none "TS").write = none ∧
    (update_phase [] "bogus" "TS").write = none :=
  ⟨C4_error_results_perform_no_write.1 [] "i1" "T" "D" (some "wrong") none none "TS" rfl,
   C4_error_results_perform_no_write.2.1 [] "a1" none none none none "TS" rfl,
   C4_error_results_perform_no_write.2.2.1 [] "d1" none none none none none false "TS" rfl,
   C4_error_results_perform_no_write.2.2.2.1 [] "s1" none none none none none none false false false "TS" rfl,
   C4_error_results_perform_no_write.2.2.2.2.1 [] "p1" "bad-date" [] none none none "TS" rfl,
   C4_error_results_perform_no_write.2.2.2.2.2.1 [] "bogus" "TS" rfl⟩

/-- C6 counterexample: the claim states the schema validator reports a
violation for any document with a duplicated id inside an entity list.
The document `dupDoc` duplicates an id in all five entity lists, yet
every per-editor validator accepts it and `validate_structure` of
`validate_state.py` reports no errors: no validator checks id
uniqueness. -/
theorem C6_counterexample_duplicate_ids_accepted :
    AddInsight.validate_against_schema dupDoc = (true, none) ∧
    GradeAssumption.validate_against_schema dupDoc = (true, none) ∧
    GradeIdea.validate_against_schema dupDoc = (true, none) ∧
    UpdateStakeholder.validate_against_schema dupDoc = (true, none) ∧
    RecordPlayback.validate_against_schema dupDoc = (true, none) ∧
    ValidateState.validate_structure dupDoc = [] :=
  ⟨rfl, rfl, rfl, rfl, rfl, rfl⟩

/-- C10: the editors that append entities (`add_insight`,
`record_playback`) and `update_stakeholder` treat an absent entity-list
key as an empty list: they initialize it and succeed, persisting a
document whose list holds exactly the new entity (for an otherwise
well-formed document and valid creation arguments); `grade_assumption`
and `grade_idea` instead return an error envelope and perform no write
when their list key is absent. -/
theorem C10_absent_list_key_initialize_or_error :
    (∀ state iid t dsc now ph,
       (∃ v, lookupVal state "project_name" = some v) →
       (∃ v, lookupVal state "created_at" = some v) →
       lookupVal state "phase" = some (Val.str ph) →
       valid_phases.contains ph = true →
       lookupVal state "insights" = none →
       (add_insight state iid t dsc none none none now).status = Status.success ∧
       ∃ w, (add_insight state iid t dsc none none none now).write = some w ∧
         lookupVal w "insights" =
           some (Val.list [Val.obj [("id", Val.str iid), ("title", Val.str t),
                                    ("description", Val.str dsc)]])) ∧
    (∀ state pid date au now ph,
       (∃ v, lookupVal state "project_name" = some v) →
       (∃ v, lookupVal state "created_at" = some v) →
       lookupVal state "phase" = some (Val.str ph) →
       valid_phases.contains ph = true →
       lookupVal state "playbacks" = none →
       strptime_ymd_ok date = true →
       (record_playback state pid date au none none none now).status = Status.success ∧
       ∃ w, (record_playback state pid date au none none none now).write = some w ∧
         lookupVal w "playbacks" =
           some (Val.list [Val.obj [("id", Val.str pid), ("date", Val.str date),
                                    ("audience", Val.list (au.map Val.str))]])) ∧
    (∀ state sid n t now ph,
       (∃ v, lookupVal state "project_name" = some v) →
       (∃ v, lookupVal state "created_at" = some v) →
       lookupVal state "phase" = some (Val.str ph) →
       valid_phases.contains ph = true →
       lookupVal state "stakeholders" = none →
       n ≠ "" →
       (["group", "individual"] : List String).contains t = true →
       (update_stakeholder state sid (some n) (some t) none none none none
          false false false now).status = Status.success ∧
       ∃ w, (update_stakeholder state sid (some n) (some t) none none none none
               false false false now).write = some w ∧
         lookupVal w "stakeholders" =
           some (Val.list [Val.obj [("id", Val.str sid), ("name", Val.str n),
                                    ("type", Val.str t)]])) ∧
    (∀ state aid c r vp st now,
       containsKey state "assumptions" = false →
       grade_assumption state aid c r vp st now =
         ⟨Status.error, none, some "No assumptions array found in currentstate.json", none⟩) ∧
    (∀ state iid im fe st dl pl ap now,
       containsKey state "ideas" = false →
       grade_idea state iid im fe st dl pl ap now =
         ⟨Status.error, none, some "No ideas array found in currentstate.json", none⟩) := by
  refine ⟨?_, ?_, ?_, ?_, ?_⟩
  · intro state iid t dsc now ph h1 h2 h3 h4 h5
    obtain ⟨v1, h1⟩ := h1
    obtain ⟨v2, h2⟩ := h2
    simp [valid_phases] at h4
    simp [add_insight, add_insight_core, containsKey, h1, h2, h3, h4, h5,
      dgetF, lookupVal_dset, pyIter, liftE_ok, liftV_ok, ebind_ok, epure_eq, ethrow_eq,
      find_by_id, pyAppendTarget, AddInsight.validate_against_schema, run_validator,
      check_required_top, required_top_fields, check_phase_field, valid_phases,
      Val.inStrList, AddInsight.check_insights_items, check_required_item,
      check_enum_optional, lookupVal, finishEdit]
  · intro state pid date au now ph h1 h2 h3 h4 h5 hd
    obtain ⟨v1, h1⟩ := h1
    obtain ⟨v2, h2⟩ := h2
    simp [valid_phases] at h4
    simp [record_playback, record_playback_core, containsKey, h1, h2, h3, h4, h5, hd,
      dgetF, lookupVal_dset, pyIter, liftE_ok, liftV_ok, ebind_ok, epure_eq, ethrow_eq,
      find_by_id, pyAppendTarget, RecordPlayback.validate_against_schema, run_validator,
      check_required_top, required_top_fields, check_phase_field, valid_phases,
      Val.inStrList, RecordPlayback.check_playbacks_items, check_required_item,
      lookupVal, finishEdit]
  · intro state sid n t now ph h1 h2 h3 h4 h5 hn ht
    obtain ⟨v1, h1⟩ := h1
    obtain ⟨v2, h2⟩ := h2
    simp [valid_phases] at h4
    simp only [List.contains_cons, List.contains_nil, Bool.or_false, Bool.or_eq_true,
      beq_iff_eq] at ht
    rcases ht with rfl | rfl <;>
      simp [update_stakeholder, update_stakeholder_core, containsKey, h1, h2, h3, h4, h5, hn,
        dgetF, lookupVal_dset, pyIter, liftE_ok, liftV_ok, ebind_ok, epure_eq, ethrow_eq,
        find_by_id, pyAppendTarget, applyListUpdate, dset,
        UpdateStakeholder.validate_against_schema, run_validator,
        check_required_top, required_top_fields, check_phase_field, valid_phases,
        Val.inStrList, UpdateStakeholder.check_stakeholders_items, check_required_item,
        check_enum_required, check_enum_optional, lookupVal, finishEdit]
  · intro state aid c r vp st now h
    simp [grade_assumption, grade_assumption_core, h, ethrow_eq, ebind_err, finishEdit]
  · intro state iid im fe st dl pl ap now h
    simp [grade_idea, grade_idea_core, h, ethrow_eq, ebind_err, finishEdit]

/-- C10 witness: concrete instances of all five conjuncts of the
theorem, on documents holding only the top-level fields. -/
theorem C10_absent_list_key_witness :
    ((add_insight (topFields "empathize") "i1" "T" "D" none none none "TS").status =
       Status.success ∧
     ∃ w, (add_insight (topFields "empathize") "i1" "T" "D" none none none "TS").write =
         some w ∧
       lookupVal w "insights" =
         some (Val.list [Val.obj [("id", Val.str "i1"), ("title", Val.str "T"),
                                  ("description", Val.str "D")]])) ∧
    ((record_playback (topFields "empathize") "p1" "2026-01-15" ["LT"] none none none
        "TS").status = Status.success ∧
     ∃ w, (record_playback (topFields "empathize") "p1" "2026-01-15" ["LT"] none none none
             "TS").write = some w ∧
       lookupVal w "playbacks" =
         some (Val.list [Val.obj [("id", Val.str "p1"), ("date", Val.str "2026-01-15"),
                                  ("audience", Val.list [Val.str "LT"])]])) ∧
    ((update_stakeholder (topFields "empathize") "s1" (some "Engineers") (some "group")
        none none none none false false false "TS").status = Status.success ∧
     ∃ w, (update_stakeholder (topFields "empathize") "s1" (some "Engineers") (some "group")
             none none none none false false false "TS").write = some w ∧
       lookupVal w "stakeholders" =
         some (Val.list [Val.obj [("id", Val.str "s1"), ("name", Val.str "Engineers"),
                                  ("type", Val.str "group")]])) ∧
    grade_assumption (topFields "define") "a1" none none none none "TS" =
      ⟨Status.error, none, some "No assumptions array found in currentstate.json", none⟩ ∧
    grade_idea (topFields "define") "d1" none none none none none false "TS" =
      ⟨Status.error, none, some "No ideas array found in currentstate.json", none⟩ :=
  ⟨C10_absent_list_key_initialize_or_error.1 (topFields "empathize") "i1" "T" "D" "TS"
     "empathize" ⟨_, rfl⟩ ⟨_, rfl⟩ rfl rfl rfl,
   C10_absent_list_key_initialize_or_error.2.1 (topFields "empathize") "p1" "2026-01-15"
     ["LT"] "TS" "empathize" ⟨_, rfl⟩ ⟨_, rfl⟩ rfl rfl rfl rfl,
   C10_absent_list_key_initialize_or_error.2.2.1 (topFields "empathize") "s1" "Engineers"
     "group" "TS" "empathize" ⟨_, rfl⟩ ⟨_, rfl⟩ rfl rfl rfl (by decide) rfl,
   C10_absent_list_key_initialize_or_error.2.2.2.1 (topFields "define") "a1" none none
     none none "TS" rfl,
   C10_absent_list_key_initialize_or_error.2.2.2.2 (topFields "define") "d1" none none
     none none none false "TS" rfl⟩

/-! Decomposition lemmas for validator bodies. -/

theorem run_validator_eq_ok (m : Except VErr Unit) :
    run_validator m = (true, none) ↔ m = .ok () := by
  cases m with
  | ok u => cases u; simp [run_validator]
  | error e => cases e <;> simp [run_validator]

theorem ebind_eq_ok {ε α β : Type} (e : Except ε α) (f : α → Except ε β) (b : β) :
    (e >>= f) = .ok b ↔ ∃ a, e = .ok a ∧ f a = .ok b := by
  cases e with
  | ok a => simp [ebind_ok]
  | error err => simp [ebind_err]

theorem check_required_item_ok_iff (kind : String) (idx : Nat) (fs : List (String × Val))
    (fields : List String) :
    check_required_item kind idx fs fields = .ok () ↔
      fields.all (fun f => containsKey fs f) = true := by
  induction fields with
  | nil => simp [check_required_item]
  | cons f rest ih =>
      by_cases h : containsKey fs f = true
      · simp [check_required_item, h, ih]
      · simp [check_required_item, h]

theorem check_enum_required_ok_iff (kind : String) (idx : Nat) (fs : List (String × Val))
    (field : String) (allowed : List String) :
    check_enum_required kind idx fs field allowed = .ok () ↔
      (dgetF fs field).inStrList allowed = true := by
  by_cases h : (dgetF fs field).inStrList allowed = true <;> simp [check_enum_required, h]

theorem check_enum_optional_ok_iff (kind : String) (idx : Nat) (fs : List (String × Val))
    (field : String) (allowed : List String) :
    check_enum_optional kind idx fs field allowed = .ok () ↔
      (containsKey fs field = false ∨ (dgetF fs field).inStrList allowed = true) := by
  by_cases h : containsKey fs field = true
  · simp [check_enum_optional, h, check_enum_required_ok_iff]
  · simp [check_enum_optional, h]

/-- Proof-side characterisation of the per-item checks the add_insight
validator performs on one insight entry. -/
def insightItemOk : Val → Bool
  | .obj fs =>
      (["id", "title", "description"] : List String).all (fun f => containsKey fs f) &&
      (!(containsKey fs "confidence") || (dgetF fs "confidence").inStrList ["high", "medium", "low"])
  | _ => false

theorem check_insights_items_ok_iff (i : Nat) (l : List Val) :
    AddInsight.check_insights_items i l = .ok () ↔ l.all insightItemOk = true := by
  induction l generalizing i with
  | nil => simp [AddInsight.check_insights_items]
  | cons x rest ih =>
      cases x with
      | obj fs =>
          simp only [AddInsight.check_insights_items, List.all_cons]
          constructor
          · intro h
            obtain ⟨u1, hu1, h⟩ := (ebind_eq_ok _ _ _).mp h
            obtain ⟨u2, hu2, h⟩ := (ebind_eq_ok _ _ _).mp h
            cases u1; cases u2
            rw [check_required_item_ok_iff] at hu1
            rw [check_enum_optional_ok_iff] at hu2
            rw [ih] at h
            simp [insightItemOk, hu1, h]
            rcases hu2 with h2 | h2 <;> simp [h2]
          · intro h
            rw [Bool.and_eq_true] at h
            obtain ⟨hx, hrest⟩ := h
            simp only [insightItemOk, Bool.and_eq_true, Bool.or_eq_true, Bool.not_eq_true'] at hx
            obtain ⟨h1, h2⟩ := hx
            rw [(ebind_eq_ok _ _ _)]
            refine ⟨(), (check_required_item_ok_iff _ _ _ _).mpr h1, ?_⟩
            rw [(ebind_eq_ok _ _ _)]
            refine ⟨(), (check_enum_optional_ok_iff _ _ _ _ _).mpr ?_, (ih _).mpr hrest⟩
            rcases h2 with h2 | h2
            · exact Or.inl h2
            · exact Or.inr h2
      | null => simp [AddInsight.check_insights_items, insightItemOk]
      | bool b => simp [AddInsight.check_insights_items, insightItemOk]
      | num n => simp [AddInsight.check_insights_items, insightItemOk]
      | str s => simp [AddInsight.check_insights_items, insightItemOk]
      | list xs => simp [AddInsight.check_insights_items, insightItemOk]

theorem check_required_top_dset_ne (d : Doc) (k : String) (v : Val) (fields : List String)
    (h : ¬ k ∈ fields) :
    check_required_top (dset d k v) fields = check_required_top d fields := by
  induction fields with
  | nil => rfl
  | cons f rest ih =>
      have hf : f ≠ k := fun hh => h (by simp [hh])
      simp only [check_required_top, containsKey_dset_ne d k f v hf,
        ih (fun hh => h (List.mem_cons_of_mem _ hh))]

theorem check_phase_field_dset_ne (d : Doc) (k : String) (v : Val) (h : k ≠ "phase") :
    check_phase_field (dset d k v) = check_phase_field d := by
  simp only [check_phase_field, dgetF_dset_ne d k "phase" v (fun hh => h hh.symm)]

/-- C3 amended: each editor re-validates only the top-level required
fields, the phase value, and its own entity list.  First conjunct: the
validator of `add_insight.py` is blind to the stakeholder list — its
verdict is unchanged by replacing the `stakeholders` entry with any
value whatsoever.  Second and third conjuncts: corruption inside the
OWN list of the editor is caught: `update_stakeholder` on a document whose
other stakeholder has type "robot" fails with SchemaViolation and
performs no write. -/
theorem C3_amended_validators_check_own_list_only :
    (∀ (d : Doc) (v : Val),
       AddInsight.validate_against_schema (dset d "stakeholders" v) =
         AddInsight.validate_against_schema d) ∧
    (update_stakeholder corruptDoc "s1" none none (some "lead") none none none
       false false false "TS").status = Status.error ∧
    (update_stakeholder corruptDoc "s1" none none (some "lead") none none none
       false false false "TS").error =
      some "Schema validation failed: Stakeholder 0 has invalid type: robot" ∧
    (update_stakeholder corruptDoc "s1" none none (some "lead") none none none
       false false false "TS").write = none := by
  refine ⟨?_, rfl, rfl, rfl⟩
  intro d v
  simp only [AddInsight.validate_against_schema,
    check_required_top_dset_ne d "stakeholders" v required_top_fields (by decide),
    check_phase_field_dset_ne d "stakeholders" v (by decide),
    containsKey_dset_ne d "stakeholders" "insights" v (by decide),
    dgetF_dset_ne d "stakeholders" "insights" v (by decide)]

/-- C6 amended: the validators check required-field presence and enum
membership per item but never id uniqueness; in particular appending to
the insights list a duplicate of an entry it already contains preserves
acceptance by the add_insight validator (the concrete duplicate-id
document of the counterexample passes every validator in the
repository). -/
theorem C6_amended_duplicate_preserves_validity :
    ∀ (d : Doc) (l : List Val) (x : Val),
      lookupVal d "insights" = some (Val.list l) →
      x ∈ l →
      AddInsight.validate_against_schema d = (true, none) →
      AddInsight.validate_against_schema (dset d "insights" (Val.list (l ++ [x]))) =
        (true, none) := by
  intro d l x hl hx hv
  rw [AddInsight.validate_against_schema, run_validator_eq_ok] at hv ⊢
  have hck : containsKey d "insights" = true := containsKey_of_lookupVal hl
  rw [hck] at hv
  simp only [if_true] at hv
  obtain ⟨u1, hu1, hv⟩ := (ebind_eq_ok _ _ _).mp hv
  obtain ⟨u2, hu2, hv⟩ := (ebind_eq_ok _ _ _).mp hv
  cases u1; cases u2
  rw [dgetF, hl] at hv
  simp only [Option.getD_some, pyIter, liftV_ok, ebind_ok] at hv
  rw [check_insights_items_ok_iff] at hv
  rw [check_required_top_dset_ne d "insights" _ required_top_fields (by decide),
    check_phase_field_dset_ne d "insights" _ (by decide)]
  rw [(ebind_eq_ok _ _ _)]
  refine ⟨(), hu1, ?_⟩
  rw [(ebind_eq_ok _ _ _)]
  refine ⟨(), hu2, ?_⟩
  rw [containsKey_dset_self, if_pos rfl]
  simp only [dgetF_dset_self, pyIter, liftV_ok, ebind_ok]
  rw [check_insights_items_ok_iff, List.all_append]
  have hxok : insightItemOk x = true := by
    have := List.all_eq_true.mp hv
    exact this _ hx
  simp [hv, hxok]

/-- C8: replace-versus-append semantics of list fields.  For any
document in which the targeted stakeholder exists with `needs = ["a"]`,
a successful `update_stakeholder` call supplying `needs = ["b"]` yields
`needs = ["b"]` when the append flag is false and `needs = ["a", "b"]`
(new items after the existing ones) when it is true; the same rule holds
for `prototype_links` through `grade_idea` (which shares the code
pattern, and whose `pain_points`/`notes_links` twins in
`update_stakeholder` go through the identical `applyListUpdate`
embedding of lines 149 to 166). -/
theorem C8_list_append_vs_replace :
    (∀ (state : Doc) (sid now : String) (items : List Val) (idx : Nat)
       (fs : List (String × Val)),
       lookupVal state "stakeholders" = some (Val.list items) →
       find_by_id items sid 0 = .ok (some (idx, fs)) →
       lookupVal fs "needs" = some (Val.list [Val.str "a"]) →
       ((update_stakeholder state sid none none none (some ["b"]) none none
           false false false now).status = Status.success →
         (update_stakeholder state sid none none none (some ["b"]) none none
           false false false now).data =
           some (Val.obj [("stakeholder_id", Val.str sid),
                          ("stakeholder", Val.obj (dset fs "needs" (Val.list [Val.str "b"]))),
                          ("updated_at", Val.str now)]) ∧
         lookupVal (dset fs "needs" (Val.list [Val.str "b"])) "needs" =
           some (Val.list [Val.str "b"])) ∧
       ((update_stakeholder state sid none none none (some ["b"]) none none
           true false false now).status = Status.success →
         (update_stakeholder state sid none none none (some ["b"]) none none
           true false false now).data =
           some (Val.obj [("stakeholder_id", Val.str sid),
                          ("stakeholder",
                           Val.obj (dset fs "needs" (Val.list [Val.str "a", Val.str "b"]))),
                          ("updated_at", Val.str now)]) ∧
         lookupVal (dset fs "needs" (Val.list [Val.str "a", Val.str "b"])) "needs" =
           some (Val.list [Val.str "a", Val.str "b"]))) ∧
    (∀ (state : Doc) (iid now : String) (items : List Val) (idx : Nat)
       (fs : List (String × Val)),
       lookupVal state "ideas" = some (Val.list items) →
       find_by_id items iid 0 = .ok (some (idx, fs)) →
       lookupVal fs "prototype_links" = some (Val.list [Val.str "a"]) →
       ((grade_idea state iid none none none none (some ["b"]) false now).status =
           Status.success →
         (grade_idea state iid none none none none (some ["b"]) false now).data =
           some (Val.obj [("idea_id", Val.str iid),
                          ("idea", Val.obj (dset fs "prototype_links" (Val.list [Val.str "b"]))),
                          ("updated_at", Val.str now)]) ∧
         lookupVal (dset fs "prototype_links" (Val.list [Val.str "b"])) "prototype_links" =
           some (Val.list [Val.str "b"])) ∧
       ((grade_idea state iid none none none none (some ["b"]) true now).status =
           Status.success →
         (grade_idea state iid none none none none (some ["b"]) true now).data =
           some (Val.obj [("idea_id", Val.str iid),
                          ("idea",
                           Val.obj (dset fs "prototype_links" (Val.list [Val.str "a", Val.str "b"]))),
                          ("updated_at", Val.str now)]) ∧
         lookupVal (dset fs "prototype_links" (Val.list [Val.str "a", Val.str "b"]))
             "prototype_links" =
           some (Val.list [Val.str "a", Val.str "b"]))) := by
  constructor
  · intro state sid now items idx fs hs hf hn
    constructor <;>
    · simp [update_stakeholder, update_stakeholder_core, containsKey, hs, hf, hn,
        dgetF, pyIter, liftE_ok, ebind_ok, epure_eq, ethrow_eq, applyListUpdate, pyAddStrs]
      split
      · simp [finishEdit, lookupVal_dset]
      · simp [finishEdit]
  · intro state iid now items idx fs hs hf hn
    constructor <;>
    · simp [grade_idea, grade_idea_core, containsKey, hs, hf, hn,
        dgetF, pyIter, liftE_ok, ebind_ok, epure_eq, ethrow_eq, applyListUpdate, pyAddStrs]
      split
      · simp [finishEdit, lookupVal_dset]
      · simp [finishEdit]

/-- A stakeholder with all three list fields populated. -/
def shFull : List (String × Val) :=
  [("id", Val.str "s1"), ("name", Val.str "Engineers"), ("type", Val.str "group"),
   ("needs", Val.list [Val.str "a"]), ("pain_points", Val.list [Val.str "p"]),
   ("notes_links", Val.list [Val.str "n"])]

/-- A document holding the stakeholder `shFull`. -/
def shDoc : Doc := topFields "empathize" ++ [("stakeholders", Val.list [Val.obj shFull])]

/-- An idea with a populated `prototype_links` field. -/
def ideaFullP : List (String × Val) :=
  [("id", Val.str "d1"), ("title", Val.str "Td1"), ("status", Val.str "prototyping"),
   ("prototype_links", Val.list [Val.str "a"])]

/-- A document holding the idea `ideaFullP`. -/
def ideaPDoc : Doc := topFields "prototype" ++ [("ideas", Val.list [Val.obj ideaFullP])]

/-- C8 witness: the four conclusions of the theorem instantiated on the
concrete documents `shDoc` and `ideaPDoc`, on which the calls succeed. -/
theorem C8_list_append_vs_replace_witness :
    ((update_stakeholder shDoc "s1" none none none (some ["b"]) none none
        false false false "TS").data =
       some (Val.obj [("stakeholder_id", Val.str "s1"),
                      ("stakeholder", Val.obj (dset shFull "needs" (Val.list [Val.str "b"]))),
                      ("updated_at", Val.str "TS")]) ∧
     lookupVal (dset shFull "needs" (Val.list [Val.str "b"])) "needs" =
       some (Val.list [Val.str "b"])) ∧
    ((update_stakeholder shDoc "s1" none none none (some ["b"]) none none
        true false false "TS").data =
       some (Val.obj [("stakeholder_id", Val.str "s1"),
                      ("stakeholder",
                       Val.obj (dset shFull "needs" (Val.list [Val.str "a", Val.str "b"]))),
                      ("updated_at", Val.str "TS")]) ∧
     lookupVal (dset shFull "needs" (Val.list [Val.str "a", Val.str "b"])) "needs" =
       some (Val.list [Val.str "a", Val.str "b"])) ∧
    ((grade_idea ideaPDoc "d1" none none none none (some ["b"]) false "TS").data =
       some (Val.obj [("idea_id", Val.str "d1"),
                      ("idea", Val.obj (dset ideaFullP "prototype_links" (Val.list [Val.str "b"]))),
                      ("updated_at", Val.str "TS")]) ∧
     lookupVal (dset ideaFullP "prototype_links" (Val.list [Val.str "b"])) "prototype_links" =
       some (Val.list [Val.str "b"])) ∧
    ((grade_idea ideaPDoc "d1" none none none none (some ["b"]) true "TS").data =
       some (Val.obj [("idea_id", Val.str "d1"),
                      ("idea",
                       Val.obj (dset ideaFullP "prototype_links" (Val.list [Val.str "a", Val.str "b"]))),
                      ("updated_at", Val.str "TS")]) ∧
     lookupVal (dset ideaFullP "prototype_links" (Val.list [Val.str "a", Val.str "b"]))
         "prototype_links" =
       some (Val.list [Val.str "a", Val.str "b"])) :=
  ⟨(C8_list_append_vs_replace.1 shDoc "s1" "TS" [Val.obj shFull] 0 shFull rfl rfl rfl).1
     (by rfl),
   (C8_list_append_vs_replace.1 shDoc "s1" "TS" [Val.obj shFull] 0 shFull rfl rfl rfl).2
     (by rfl),
   (C8_list_append_vs_replace.2 ideaPDoc "d1" "TS" [Val.obj ideaFullP] 0 ideaFullP rfl rfl rfl).1
     (by rfl),
   (C8_list_append_vs_replace.2 ideaPDoc "d1" "TS" [Val.obj ideaFullP] 0 ideaFullP rfl rfl rfl).2
     (by rfl)⟩

/-- C9: partial update preserves untouched fields.  For any document in
which the targeted stakeholder exists, a successful `update_stakeholder`
call supplying only `role` persists exactly the original document with
that one `role` field replaced and `updated_at` bumped; the `needs`,
`pain_points` and `notes_links` of that stakeholder are unchanged,
every other stakeholder (every other list position) is unchanged, and
every other top-level entry of the document is unchanged. -/
theorem C9_role_only_update_preserves_rest :
    ∀ (state : Doc) (sid ro now : String) (items : List Val) (idx : Nat)
      (fs : List (String × Val)),
      lookupVal state "stakeholders" = some (Val.list items) →
      find_by_id items sid 0 = .ok (some (idx, fs)) →
      ((update_stakeholder state sid none none (some ro) none none none
          false false false now).status = Status.success →
        (update_stakeholder state sid none none (some ro) none none none
          false false false now).write =
          some (dset (dset state "stakeholders"
                  (Val.list (items.set idx (Val.obj (dset fs "role" (Val.str ro))))))
                "updated_at" (Val.str now)) ∧
        lookupVal (dset fs "role" (Val.str ro)) "needs" = lookupVal fs "needs" ∧
        lookupVal (dset fs "role" (Val.str ro)) "pain_points" = lookupVal fs "pain_points" ∧
        lookupVal (dset fs "role" (Val.str ro)) "notes_links" = lookupVal fs "notes_links" ∧
        (∀ j, j ≠ idx →
          (items.set idx (Val.obj (dset fs "role" (Val.str ro)))).get? j = items.get? j) ∧
        (∀ k, k ≠ "stakeholders" → k ≠ "updated_at" →
          lookupVal (dset (dset state "stakeholders"
                       (Val.list (items.set idx (Val.obj (dset fs "role" (Val.str ro))))))
                     "updated_at" (Val.str now)) k = lookupVal state k)) := by
  intro state sid ro now items idx fs hs hf
  simp [update_stakeholder, update_stakeholder_core, containsKey, hs, hf,
    dgetF, pyIter, liftE_ok, ebind_ok, epure_eq, ethrow_eq, applyListUpdate]
  split
  · rename_i heq
    intro hsucc
    refine ⟨?_, ?_, ?_, ?_, fun j hj => by simpa using list_get?_set_ne items idx j _ hj,
      fun k h1 h2 => ?_⟩
    · simp [finishEdit]
    · simp [lookupVal_dset]
    · simp [lookupVal_dset]
    · simp [lookupVal_dset]
    · simp [lookupVal_dset, h1, h2]
  · simp [finishEdit]

/-- C9 witness: the conclusions of the theorem instantiated on the
concrete document `shDoc`, on which the role-only update succeeds. -/
theorem C9_role_only_update_witness :
    (update_stakeholder shDoc "s1" none none (some "lead") none none none
       false false false "TS").write =
      some (dset (dset shDoc "stakeholders"
              (Val.list ([Val.obj shFull].set 0 (Val.obj (dset shFull "role" (Val.str "lead"))))))
            "updated_at" (Val.str "TS")) ∧
    lookupVal (dset shFull "role" (Val.str "lead")) "needs" = lookupVal shFull "needs" ∧
    lookupVal (dset shFull "role" (Val.str "lead")) "pain_points" =
      lookupVal shFull "pain_points" ∧
    lookupVal (dset shFull "role" (Val.str "lead")) "notes_links" =
      lookupVal shFull "notes_links" ∧
    (∀ j, j ≠ 0 →
      ([Val.obj shFull].set 0 (Val.obj (dset shFull "role" (Val.str "lead")))).get? j =
        [Val.obj shFull].get? j) ∧
    (∀ k, k ≠ "stakeholders" → k ≠ "updated_at" →
      lookupVal (dset (dset shDoc "stakeholders"
                   (Val.list ([Val.obj shFull].set 0
                     (Val.obj (dset shFull "role" (Val.str "lead"))))))
                 "updated_at" (Val.str "TS")) k = lookupVal shDoc k) :=
  C9_role_only_update_preserves_rest shDoc "s1" "lead" "TS" [Val.obj shFull] 0 shFull
    rfl rfl (by rfl)

/-! Totality of the phase checkers on documents whose entity lists hold
only objects. -/

/-- Object test. -/
def isObjB : Val → Bool
  | .obj _ => true
  | _ => false

/-- A top-level key is either absent or bound to a list of objects. -/
def listFieldObjOk (d : Doc) (k : String) : Bool :=
  match lookupVal d k with
  | none => true
  | some (.list xs) => xs.all isObjB
  | some _ => false

theorem okP_bind {α β : Type} {e : Except String α} {f : α → Except String β}
    (he : ∃ a, e = .ok a) (hf : ∀ a, ∃ b, f a = .ok b) : ∃ b, (e >>= f) = .ok b := by
  obtain ⟨a, ha⟩ := he
  obtain ⟨b, hb⟩ := hf a
  exact ⟨b, by rw [ha, ebind_ok, hb]⟩

theorem okP_bind_eq {α β : Type} {e : Except String α} {a : α} {f : α → Except String β}
    (he : e = .ok a) (hf : ∃ b, f a = .ok b) : ∃ b, (e >>= f) = .ok b := by
  obtain ⟨b, hb⟩ := hf
  exact ⟨b, by rw [he, ebind_ok, hb]⟩

theorem okP_ite {α : Type} {c : Prop} [Decidable c] {t e : Except String α}
    (ht : ∃ a, t = .ok a) (he : ∃ a, e = .ok a) : ∃ a, (if c then t else e) = .ok a := by
  by_cases h : c
  · rw [if_pos h]; exact ht
  · rw [if_neg h]; exact he

theorem empathize_reasons_ok (xs : List Val) (h : xs.all isObjB = true) :
    ∃ r, CheckCompletion.empathize_stakeholder_reasons xs = .ok r := by
  induction xs with
  | nil => exact ⟨[], rfl⟩
  | cons x rest ih =>
      rw [List.all_cons, Bool.and_eq_true] at h
      obtain ⟨hx, hr⟩ := h
      cases x <;> simp [isObjB] at hx
      rename_i fs
      simp only [CheckCompletion.empathize_stakeholder_reasons]
      refine okP_bind_eq rfl ?_
      refine okP_bind_eq rfl ?_
      refine okP_bind_eq rfl ?_
      refine okP_bind_eq rfl ?_
      exact okP_bind (ih hr) (fun rs => ⟨_, rfl⟩)

theorem count_ungraded_assumptions_ok (xs : List Val) (h : xs.all isObjB = true) :
    ∃ n, CheckCompletion.count_ungraded_assumptions xs = .ok n := by
  induction xs with
  | nil => exact ⟨0, rfl⟩
  | cons x rest ih =>
      rw [List.all_cons, Bool.and_eq_true] at h
      obtain ⟨hx, hr⟩ := h
      cases x <;> simp [isObjB] at hx
      simp only [CheckCompletion.count_ungraded_assumptions]
      refine okP_bind ⟨_, rfl⟩ (fun c => ?_)
      refine okP_bind ⟨_, rfl⟩ (fun r => ?_)
      exact okP_bind (ih hr) (fun n => ⟨_, rfl⟩)

theorem count_low_certainty_high_risk_ok (xs : List Val) (h : xs.all isObjB = true) :
    ∃ n, CheckCompletion.count_low_certainty_high_risk xs = .ok n := by
  induction xs with
  | nil => exact ⟨0, rfl⟩
  | cons x rest ih =>
      rw [List.all_cons, Bool.and_eq_true] at h
      obtain ⟨hx, hr⟩ := h
      cases x <;> simp [isObjB] at hx
      simp only [CheckCompletion.count_low_certainty_high_risk]
      refine okP_bind ⟨_, rfl⟩ (fun r => ?_)
      refine okP_bind ⟨_, rfl⟩ (fun c => ?_)
      exact okP_bind (ih hr) (fun n => ⟨_, rfl⟩)

theorem count_ungraded_ideas_ok (xs : List Val) (h : xs.all isObjB = true) :
    ∃ n, CheckCompletion.count_ungraded_ideas xs = .ok n := by
  induction xs with
  | nil => exact ⟨0, rfl⟩
  | cons x rest ih =>
      rw [List.all_cons, Bool.and_eq_true] at h
      obtain ⟨hx, hr⟩ := h
      cases x <;> simp [isObjB] at hx
      simp only [CheckCompletion.count_ungraded_ideas]
      refine okP_bind ⟨_, rfl⟩ (fun a => ?_)
      refine okP_bind ⟨_, rfl⟩ (fun b => ?_)
      exact okP_bind (ih hr) (fun n => ⟨_, rfl⟩)

theorem count_high_impact_grade_ok (xs : List Val) (h : xs.all isObjB = true) :
    ∃ n, CheckCompletion.count_high_impact_grade xs = .ok n := by
  induction xs with
  | nil => exact ⟨0, rfl⟩
  | cons x rest ih =>
      rw [List.all_cons, Bool.and_eq_true] at h
      obtain ⟨hx, hr⟩ := h
      cases x <;> simp [isObjB] at hx
      simp only [CheckCompletion.count_high_impact_grade]
      refine okP_bind ⟨_, rfl⟩ (fun a => ?_)
      exact okP_bind (ih hr) (fun n => ⟨_, rfl⟩)

theorem count_status_prototyping_ok (xs : List Val) (h : xs.all isObjB = true) :
    ∃ n, CheckCompletion.count_status_prototyping xs = .ok n := by
  induction xs with
  | nil => exact ⟨0, rfl⟩
  | cons x rest ih =>
      rw [List.all_cons, Bool.and_eq_true] at h
      obtain ⟨hx, hr⟩ := h
      cases x <;> simp [isObjB] at hx
      simp only [CheckCompletion.count_status_prototyping]
      refine okP_bind ⟨_, rfl⟩ (fun s => ?_)
      exact okP_bind (ih hr) (fun n => ⟨_, rfl⟩)

theorem count_status_validated_ok (xs : List Val) (h : xs.all isObjB = true) :
    ∃ n, CheckCompletion.count_status_validated xs = .ok n := by
  induction xs with
  | nil => exact ⟨0, rfl⟩
  | cons x rest ih =>
      rw [List.all_cons, Bool.and_eq_true] at h
      obtain ⟨hx, hr⟩ := h
      cases x <;> simp [isObjB] at hx
      simp only [CheckCompletion.count_status_validated]
      refine okP_bind ⟨_, rfl⟩ (fun s => ?_)
      exact okP_bind (ih hr) (fun n => ⟨_, rfl⟩)

theorem listFieldObjOk_rootGet {d : Doc} {k : String} (h : listFieldObjOk d k = true) :
    ∃ xs, rootGet d k (Val.list []) = Val.list xs ∧ xs.all isObjB = true := by
  unfold listFieldObjOk at h
  rcases hl : lookupVal d k with _ | v
  · exact ⟨[], by simp [rootGet, hl], rfl⟩
  · rw [hl] at h
    cases v <;> simp at h
    rename_i xs
    exact ⟨xs, by simp [rootGet, hl], by simpa using h⟩

theorem check_empathize_total (d : Doc) (h1 : listFieldObjOk d "stakeholders" = true)
    (h4 : listFieldObjOk d "insights" = true) :
    ∃ r, CheckCompletion.check_empathize_complete d = .ok r := by
  obtain ⟨sxs, hs1, hs2⟩ := listFieldObjOk_rootGet h1
  obtain ⟨ixs, hi1, _⟩ := listFieldObjOk_rootGet h4
  simp only [CheckCompletion.check_empathize_complete, hs1, hi1]
  refine okP_bind_eq rfl ?_
  refine okP_bind_eq rfl ?_
  refine okP_bind (empathize_reasons_ok sxs hs2) (fun r1 => ?_)
  exact okP_bind_eq rfl ⟨_, rfl⟩

theorem check_define_total (d : Doc) (h2 : listFieldObjOk d "assumptions" = true)
    (h4 : listFieldObjOk d "insights" = true) :
    ∃ r, CheckCompletion.check_define_complete d = .ok r := by
  obtain ⟨axs, ha1, ha2⟩ := listFieldObjOk_rootGet h2
  obtain ⟨ixs, hi1, _⟩ := listFieldObjOk_rootGet h4
  simp only [CheckCompletion.check_define_complete, ha1, hi1]
  refine okP_bind_eq rfl ?_
  refine okP_ite ⟨_, rfl⟩ ?_
  refine okP_bind_eq rfl ?_
  refine okP_bind (count_ungraded_assumptions_ok axs ha2) (fun ung => ?_)
  exact okP_bind (count_low_certainty_high_risk_ok axs ha2) (fun hrk => ⟨_, rfl⟩)

theorem check_ideate_total (d : Doc) (h3 : listFieldObjOk d "ideas" = true) :
    ∃ r, CheckCompletion.check_ideate_complete d = .ok r := by
  obtain ⟨xs, hx1, hx2⟩ := listFieldObjOk_rootGet h3
  simp only [CheckCompletion.check_ideate_complete, hx1]
  refine okP_bind_eq rfl ?_
  refine okP_ite ?_ ⟨_, rfl⟩
  refine okP_bind_eq rfl ?_
  refine okP_bind (count_ungraded_ideas_ok xs hx2) (fun ung => ?_)
  exact okP_bind (count_high_impact_grade_ok xs hx2) (fun hi => ⟨_, rfl⟩)

theorem check_prototype_total (d : Doc) (h3 : listFieldObjOk d "ideas" = true) :
    ∃ r, CheckCompletion.check_prototype_complete d = .ok r := by
  obtain ⟨xs, hx1, hx2⟩ := listFieldObjOk_rootGet h3
  simp only [CheckCompletion.check_prototype_complete, hx1]
  refine okP_bind_eq rfl ?_
  exact okP_bind (count_status_prototyping_ok xs hx2) (fun kk => ⟨_, rfl⟩)

theorem check_iterate_total (d : Doc) (h3 : listFieldObjOk d "ideas" = true) :
    ∃ r, CheckCompletion.check_iterate_complete d = .ok r := by
  obtain ⟨xs, hx1, hx2⟩ := listFieldObjOk_rootGet h3
  simp only [CheckCompletion.check_iterate_complete, hx1]
  refine okP_bind_eq rfl ?_
  exact okP_bind (count_status_validated_ok xs hx2) (fun kk => ⟨_, rfl⟩)

/-- C5 amended: the phase checkers are total — returning a
(complete, reasons) pair — on every document whose entity lists, when
present, are lists of objects; and dispatching any of the five declared
phases then also returns a pair.  (On a list containing a non-object
entry a checker raises AttributeError, and on an unrecognised phase the
dispatch raises ValueError; `main` catches both and prints an error
envelope with exit code 1 instead of a rule report — see the
counterexample.) -/
theorem C5_amended_evaluator_total_on_object_lists :
    ∀ d : Doc,
      listFieldObjOk d "stakeholders" = true →
      listFieldObjOk d "assumptions" = true →
      listFieldObjOk d "ideas" = true →
      listFieldObjOk d "insights" = true →
      (∃ r, CheckCompletion.check_empathize_complete d = .ok r) ∧
      (∃ r, CheckCompletion.check_define_complete d = .ok r) ∧
      (∃ r, CheckCompletion.check_ideate_complete d = .ok r) ∧
      (∃ r, CheckCompletion.check_prototype_complete d = .ok r) ∧
      (∃ r, CheckCompletion.check_iterate_complete d = .ok r) ∧
      (∀ ph, valid_phases.contains ph = true →
        ∃ r, CheckCompletion.run_phase_check ph d = .ok r) := by
  intro d h1 h2 h3 h4
  refine ⟨check_empathize_total d h1 h4, check_define_total d h2 h4,
    check_ideate_total d h3, check_prototype_total d h3, check_iterate_total d h3, ?_⟩
  intro ph hph
  simp [valid_phases] at hph
  rcases hph with rfl | rfl | rfl | rfl | rfl
  · simpa [CheckCompletion.run_phase_check] using check_empathize_total d h1 h4
  · simpa [CheckCompletion.run_phase_check] using check_define_total d h2 h4
  · simpa [CheckCompletion.run_phase_check] using check_ideate_total d h3
  · simpa [CheckCompletion.run_phase_check] using check_prototype_total d h3
  · simpa [CheckCompletion.run_phase_check] using check_iterate_total d h3

/-- C5 amended witness: the conclusion instantiated on a concrete
document whose entity lists are lists of objects. -/
theorem C5_amended_evaluator_total_witness :
    (∃ r, CheckCompletion.check_empathize_complete defineDocWithPlan = .ok r) ∧
    (∃ r, CheckCompletion.check_define_complete defineDocWithPlan = .ok r) ∧
    (∃ r, CheckCompletion.check_ideate_complete defineDocWithPlan = .ok r) ∧
    (∃ r, CheckCompletion.check_prototype_complete defineDocWithPlan = .ok r) ∧
    (∃ r, CheckCompletion.check_iterate_complete defineDocWithPlan = .ok r) ∧
    (∀ ph, valid_phases.contains ph = true →
      ∃ r, CheckCompletion.run_phase_check ph defineDocWithPlan = .ok r) :=
  C5_amended_evaluator_total_on_object_lists defineDocWithPlan rfl rfl rfl rfl

/-- C6 amended witness: appending a duplicate of the first insight of
the duplicate-id document preserves acceptance, by the theorem. -/
theorem C6_amended_duplicate_preserves_validity_witness :
    AddInsight.validate_against_schema
      (dset dupDoc "insights"
        (Val.list ([insightV "i1", insightV "i1"] ++ [insightV "i1"]))) = (true, none) :=
  C6_amended_duplicate_preserves_validity dupDoc [insightV "i1", insightV "i1"]
    (insightV "i1") rfl (List.mem_cons_self _ _) rfl

end DesignTeam
